import Mathlib

/-!
Verification of the BrainDriveSettings plugin lifecycle manager
(src/lifecycle_manager.py).

The development shallowly embeds the lifecycle manager as pure Lean
functions over an explicit relational store.  JSON documents stored in
database columns are modelled by an explicit syntax tree; since the
Python code only moves such documents between columns with
json.loads/json.dumps (which are mutually inverse at the value level),
serialization is modelled as the identity embedding and decode failures
of well-formed values do not arise.  Database sessions are transactional:
statements act on a pending store, commit publishes it, rollback discards
it.  Exceptional paths that the code catches (a failing existence query,
a failing file copy, a failing import statement) are modelled by explicit
fault flags carried in the world state.
-/

namespace BrainDriveSettings

/-! ## JSON values -/

mutual
inductive Json where
  | null
  | bool (b : Bool)
  | num (n : Int)
  | str (s : String)
  | arr (elems : JsonList)
  | obj (entries : JsonObj)
  deriving DecidableEq
inductive JsonList where
  | nil
  | cons (hd : Json) (tl : JsonList)
  deriving DecidableEq
inductive JsonObj where
  | nil
  | cons (key : String) (val : Json) (tl : JsonObj)
  deriving DecidableEq
end

def JsonList.ofList : List Json → JsonList
  | [] => .nil
  | x :: xs => .cons x (ofList xs)

def JsonObj.ofList : List (String × Json) → JsonObj
  | [] => .nil
  | (k, v) :: xs => .cons k v (ofList xs)

/-- Array literal helper for transcribing the static metadata. -/
def Json.arrL (xs : List Json) : Json := .arr (JsonList.ofList xs)

/-- Object literal helper for transcribing the static metadata. -/
def Json.objL (kvs : List (String × Json)) : Json := .obj (JsonObj.ofList kvs)

/-! ## Table rows -/

/-- A row of the plugin table, with the columns populated by
_create_database_records. -/
structure PluginRow where
  id : String
  name : String
  description : String
  version : String
  type : String
  enabled : Bool
  icon : Option String
  category : Option String
  status : String
  official : Bool
  author : String
  last_updated : String
  compatibility : String
  downloads : Nat
  scope : Option String
  bundle_method : Option String
  bundle_location : Option String
  is_local : Bool
  long_description : Option String
  config_fields : Option Json
  messages : Option Json
  dependencies : Option Json
  created_at : String
  updated_at : String
  user_id : String
  plugin_slug : Option String
  source_type : Option String
  source_url : Option String
  update_check_url : Option String
  last_update_check : Option String
  update_available : Bool
  latest_version : Option String
  installation_type : Option String
  permissions : Json
  deriving DecidableEq

/-- A row of the module table, with the columns populated by
_create_database_records. -/
structure ModuleRow where
  id : String
  plugin_id : String
  name : String
  display_name : Option String
  description : Option String
  icon : Option String
  category : Option String
  enabled : Bool
  priority : Nat
  props : Option Json
  config_fields : Option Json
  messages : Option Json
  required_services : Option Json
  dependencies : Option Json
  layout : Option Json
  tags : Option Json
  created_at : String
  updated_at : String
  user_id : String
  deriving DecidableEq

/-- A row of the settings_definitions table. -/
structure SettingsDefinitionRow where
  id : String
  name : String
  description : String
  category : String
  type : String
  default_value : String
  allowed_scopes : String
  validation : Option String
  is_multiple : Bool
  tags : String
  created_at : String
  updated_at : String
  deriving DecidableEq

/-- A row of the settings_instances table. -/
structure SettingsInstanceRow where
  id : String
  definition_id : String
  name : String
  value : String
  scope : String
  user_id : String
  page_id : Option String
  created_at : String
  updated_at : String
  deriving DecidableEq

/-- The relational store: the four tables touched by the adapter. -/
structure Store where
  plugins : List PluginRow
  modules : List ModuleRow
  settings_definitions : List SettingsDefinitionRow
  settings_instances : List SettingsInstanceRow
  deriving DecidableEq

/-- World state threaded through every lifecycle verb: the committed
store, the pending (in-transaction) store, the shared plugin files on
disk, and explicit fault switches for the exception paths the code
catches (one entry of checkFaults is consumed by each plugin-existence
query; copyFail makes the file copy raise; importRaise makes the first
statement of the user-data import raise).  uuidSeed feeds the fresh
settings-instance ids and now stands for datetime.now(). -/
structure World where
  committed : Store
  pending : Store
  files : List String
  checkFaults : List Bool
  copyFail : Bool
  importRaise : Bool
  uuidSeed : Nat
  now : String
  deriving DecidableEq

/-! ## Static plugin metadata (the self.plugin_data dictionary) -/

structure PluginStaticData where
  name : String
  description : String
  version : String
  type : String
  icon : String
  category : String
  official : Bool
  author : String
  compatibility : String
  scope : String
  bundle_method : String
  bundle_location : String
  is_local : Bool
  long_description : String
  plugin_slug : String
  source_type : String
  source_url : String
  update_check_url : String
  last_update_check : Option String
  update_available : Bool
  latest_version : Option String
  installation_type : String
  permissions : List String
  deriving DecidableEq

def plugin_data : PluginStaticData :=
  { name := "BrainDrive Settings"
  , description := "Basic BrainDrive Settings Plugin"
  , version := "1.0.3"
  , type := "frontend"
  , icon := "Dashboard"
  , category := "Utilities"
  , official := true
  , author := "BrainDrive Team"
  , compatibility := "1.0.0"
  , scope := "BrainDriveSettings"
  , bundle_method := "webpack"
  , bundle_location := "dist/remoteEntry.js"
  , is_local := false
  , long_description := "Comprehensive settings management for BrainDrive including theme settings, general configuration, and Ollama server management."
  , plugin_slug := "BrainDriveSettings"
  , source_type := "remote"
  , source_url := "https://github.com/DJJones66/BrainDriveSettings"
  , update_check_url := "https://api.github.com/repos/DJJones66/BrainDriveSettings/releases/latest"
  , last_update_check := none
  , update_available := false
  , latest_version := none
  , installation_type := "remote"
  , permissions := ["storage.read", "storage.write", "api.access", "settings.manage"] }

/-! ## Static module metadata (the self.module_data list) -/

structure ModuleDescriptor where
  name : String
  display_name : String
  description : String
  icon : String
  category : String
  priority : Nat
  props : Json
  config_fields : Json
  messages : Json
  required_services : Json
  dependencies : Json
  layout : Json
  tags : Json
  deriving DecidableEq

def settingsServiceJson : Json :=
  Json.objL
    [ ("methods", Json.arrL [Json.str "getSetting", Json.str "setSetting", Json.str "registerSettingDefinition", Json.str "getSettingDefinitions", Json.str "subscribe", Json.str "subscribeToCategory"])
    , ("version", Json.str "1.0.0") ]

def module_data : List ModuleDescriptor :=
  [ { name := "ComponentTheme"
    , display_name := "Theme Settings"
    , description := "Change application theme"
    , icon := "DarkMode"
    , category := "Settings"
    , priority := 1
    , props := Json.objL []
    , config_fields := Json.objL []
    , messages := Json.objL [("sends", Json.arrL []), ("receives", Json.arrL [])]
    , required_services :=
        Json.objL
          [ ("theme", Json.objL
              [ ("methods", Json.arrL [Json.str "getCurrentTheme", Json.str "setTheme", Json.str "toggleTheme", Json.str "addThemeChangeListener", Json.str "removeThemeChangeListener"])
              , ("version", Json.str "1.0.0") ])
          , ("settings", settingsServiceJson) ]
    , dependencies := Json.arrL []
    , layout := Json.objL [("minWidth", Json.num 6), ("minHeight", Json.num 1), ("defaultWidth", Json.num 12), ("defaultHeight", Json.num 1)]
    , tags := Json.arrL [Json.str "Settings", Json.str "Theme Settings"] }
  , { name := "ComponentGeneralSettings"
    , display_name := "General Settings"
    , description := "Manage general application settings"
    , icon := "Settings"
    , category := "Settings"
    , priority := 1
    , props := Json.objL []
    , config_fields := Json.objL []
    , messages := Json.objL [("sends", Json.arrL []), ("receives", Json.arrL [])]
    , required_services :=
        Json.objL
          [ ("api", Json.objL
              [ ("methods", Json.arrL [Json.str "get", Json.str "post"])
              , ("version", Json.str "1.0.0") ])
          , ("theme", Json.objL
              [ ("methods", Json.arrL [Json.str "getCurrentTheme", Json.str "addThemeChangeListener", Json.str "removeThemeChangeListener"])
              , ("version", Json.str "1.0.0") ])
          , ("settings", settingsServiceJson) ]
    , dependencies := Json.arrL []
    , layout := Json.objL [("minWidth", Json.num 6), ("minHeight", Json.num 1), ("defaultWidth", Json.num 12), ("defaultHeight", Json.num 1)]
    , tags := Json.arrL [Json.str "Settings", Json.str "General Settings"] }
  , { name := "ComponentOllamaServer"
    , display_name := "Ollama Servers"
    , description := "Manage multiple Ollama server connections"
    , icon := "Storage"
    , category := "LLM Servers"
    , priority := 1
    , props := Json.objL []
    , config_fields := Json.objL []
    , messages := Json.objL [("sends", Json.arrL []), ("receives", Json.arrL [])]
    , required_services :=
        Json.objL
          [ ("api", Json.objL
              [ ("methods", Json.arrL [Json.str "get", Json.str "post", Json.str "delete"])
              , ("version", Json.str "1.0.0") ])
          , ("theme", Json.objL
              [ ("methods", Json.arrL [Json.str "getCurrentTheme", Json.str "addThemeChangeListener", Json.str "removeThemeChangeListener"])
              , ("version", Json.str "1.0.0") ])
          , ("settings", settingsServiceJson) ]
    , dependencies := Json.arrL []
    , layout := Json.objL [("minWidth", Json.num 6), ("minHeight", Json.num 4), ("defaultWidth", Json.num 8), ("defaultHeight", Json.num 5)]
    , tags := Json.arrL [Json.str "Settings", Json.str "Ollama Server Settings", Json.str "Multiple Servers"] }
  ]

/-! ## Static settings metadata (PLUGIN_SETTINGS_DEFINITIONS and the
default instances created by _create_settings_instances) -/

structure SettingsDefinitionData where
  id : String
  name : String
  description : String
  category : String
  type : String
  default_value : String
  allowed_scopes : String
  validation : Option String
  is_multiple : Bool
  tags : String
  deriving DecidableEq

def PLUGIN_SETTINGS_DEFINITIONS : List SettingsDefinitionData :=
  [ { id := "theme_settings"
    , name := "Theme Settings"
    , description := "Auto-generated definition for Theme Settings"
    , category := "auto_generated"
    , type := "object"
    , default_value := "\x7b\"theme\": \"light\", \"useSystemTheme\": false\x7d"
    , allowed_scopes := "[\"system\", \"user\", \"page\", \"user_page\"]"
    , validation := none
    , is_multiple := false
    , tags := "[\"auto_generated\"]" }
  , { id := "ollama_servers_settings"
    , name := "Ollama Servers Settings"
    , description := "Auto-generated definition for Ollama Servers Settings"
    , category := "auto_generated"
    , type := "object"
    , default_value := "\x7b\"servers\": [\x7b\"id\": \"server_1742054635336_5puc3mrll\", \"serverName\": \"New Server\", \"serverAddress\": \"http://localhost:11434\", \"apiKey\": \"\", \"connectionStatus\": \"idle\"\x7d]\x7d"
    , allowed_scopes := "[\"system\", \"user\", \"page\", \"user_page\"]"
    , validation := none
    , is_multiple := false
    , tags := "[\"auto_generated\"]" }
  , { id := "general_settings"
    , name := "General Settings"
    , description := "Auto-generated definition for General Settings"
    , category := "auto_generated"
    , type := "object"
    , default_value := "\x7b\"settings\":[\x7b\"Setting_Name\":\"default_page\",\"Setting_Data\":\"Dashboard\",\"Setting_Help\":\"This is the first page to be displayed after logging in to BrainDrive\"\x7d]\x7d"
    , allowed_scopes := "[\"system\", \"user\", \"page\", \"user_page\"]"
    , validation := none
    , is_multiple := false
    , tags := "[\"auto_generated\"]" }
  ]

structure SettingsInstanceData where
  definition_id : String
  name : String
  value : String
  scope : String
  deriving DecidableEq

/-- The default settings instances hard-coded in _create_settings_instances. -/
def settings_instances_data : List SettingsInstanceData :=
  [ { definition_id := "theme_settings"
    , name := "Theme Settings"
    , value := "\x7b\"theme\": \"light\", \"useSystemTheme\": false\x7d"
    , scope := "user" }
  , { definition_id := "ollama_servers_settings"
    , name := "Ollama Servers Settings"
    , value := "\x7b\"servers\": [\x7b\"id\": \"server_1742054635336_5puc3mrll\", \"serverName\": \"New Server\", \"serverAddress\": \"http://localhost:11434\", \"apiKey\": \"\", \"connectionStatus\": \"idle\"\x7d]\x7d"
    , scope := "user" }
  , { definition_id := "general_settings"
    , name := "General Settings"
    , value := "\x7b\"settings\": [\x7b\"Setting_Name\": \"default_page\", \"Setting_Data\": \"Dashboard\", \"Setting_Help\": \"This is the first page to be displayed after logging in to BrainDrive\"\x7d]\x7d"
    , scope := "user" }
  ]

/-! ## SQL LIKE (used by the module export query) -/

/-- Matcher for SQL LIKE patterns: an underscore matches any single
character, a percent sign matches any sequence (hence may jump to any
suffix of the text), everything else is literal. -/
def likeMatchL : List Char → List Char → Bool
  | [], cs => cs.isEmpty
  | p :: ps, cs =>
    if p = '%' then
      cs.tails.any (fun suffix => likeMatchL ps suffix)
    else
      match cs with
      | [] => false
      | c :: cs2 => (p = '_' || p = c) && likeMatchL ps cs2

def likeMatch (pat s : String) : Bool := likeMatchL pat.toList s.toList

/-! ## Result records (the Python result dictionaries) -/

/-- Result of _check_existing_plugin. -/
structure CheckResult where
  exists_ : Bool
  plugin_id : Option String := none
  error : Option String := none
  deriving DecidableEq

/-- Result dictionary of the mutating lifecycle verbs; absent dictionary
keys are none. -/
structure OpResult where
  success : Bool
  error : Option String := none
  plugin_id : Option String := none
  plugin_slug : Option String := none
  plugin_name : Option String := none
  modules_created : Option (List String) := none
  created_instances : Option (List String) := none
  settings_created : Option (List String) := none
  deleted_modules : Option Nat := none
  shared_path : Option String := none
  files_copied : Option (List String) := none
  deriving DecidableEq

/-- Result of get_plugin_status. -/
structure StatusResult where
  installed : Bool
  plugin_id : Option String := none
  plugin_slug : Option String := none
  plugin_name : Option String := none
  version : Option String := none
  deriving DecidableEq

/-- Plugin-level configuration exported by _export_user_data. -/
structure PluginConfigExport where
  config_fields : Json
  messages : Json
  dependencies : Json
  deriving DecidableEq

/-- Module-level configuration exported by _export_user_data. -/
structure ModuleConfigExport where
  props : Json
  config_fields : Json
  messages : Json
  layout : Json
  deriving DecidableEq

/-- The export_data dictionary; plugin_config is none when the dictionary
stays empty. -/
structure ExportData where
  plugin_config : Option PluginConfigExport
  modules_config : List (String × ModuleConfigExport)
  export_timestamp : String
  deriving DecidableEq

structure ExportResult where
  success : Bool
  data : Option ExportData := none
  error : Option String := none
  deriving DecidableEq

/-! ## Operations -/

/-- Message produced when a database read raises. -/
def dbErrorMessage : String := "database error"

/-- Error message of scalar_one_or_none on a multi-row result. -/
def multipleRowsMessage : String := "Multiple rows were found when one or none was required"

/-- Consume the next entry of the existence-query fault switch. -/
def popCheckFault (w : World) : Bool × World :=
  (w.checkFaults.headD false, { w with checkFaults := w.checkFaults.tail })

/-- Predicate of the existence query: user_id = :user_id AND
plugin_slug = :plugin_slug. -/
def isUserPlugin (user_id : String) (p : PluginRow) : Bool :=
  p.user_id == user_id && p.plugin_slug == some plugin_data.plugin_slug

/-- Models _check_existing_plugin: a fetchone on the plugin table guarded
by a try/except that turns a raising query into an exists-false result
carrying the error. -/
def check_existing_plugin (user_id : String) (w : World) : CheckResult × World :=
  let fw := popCheckFault w
  if fw.1 then
    ({ exists_ := false, error := some dbErrorMessage }, fw.2)
  else
    match fw.2.pending.plugins.find? (isUserPlugin user_id) with
    | some row => ({ exists_ := true, plugin_id := some row.id }, fw.2)
    | none => ({ exists_ := false }, fw.2)

def mkSettingsDefinitionRow (d : SettingsDefinitionData) (now : String) : SettingsDefinitionRow :=
  { id := d.id, name := d.name, description := d.description, category := d.category
  , type := d.type, default_value := d.default_value, allowed_scopes := d.allowed_scopes
  , validation := d.validation, is_multiple := d.is_multiple, tags := d.tags
  , created_at := now, updated_at := now }

/-- Loop body of _ensure_settings_definitions: a select by id through
scalar_one_or_none (raising on several rows), then a create-if-absent
insert.  On a raise the rows inserted so far stay pending (rollback, when
any, is the callers business). -/
def ensureDefsGo (now : String) : List SettingsDefinitionData → Store → Store × Option String
  | [], s => (s, none)
  | d :: rest, s =>
    match s.settings_definitions.filter (fun r => r.id == d.id) with
    | [] => ensureDefsGo now rest
        { s with settings_definitions := s.settings_definitions ++ [mkSettingsDefinitionRow d now] }
    | [_] => ensureDefsGo now rest s
    | _ :: _ :: _ => (s, some multipleRowsMessage)

/-- Models _ensure_settings_definitions. -/
def ensure_settings_definitions (w : World) : OpResult × World :=
  let se := ensureDefsGo w.now PLUGIN_SETTINGS_DEFINITIONS w.pending
  let w := { w with pending := se.1 }
  match se.2 with
  | none => ({ success := true }, w)
  | some e => ({ success := false, error := some e }, w)

/-- Stands for str(uuid4()).replace(the dash, nothing): an injective
supply of fresh instance ids. -/
def uuidHex (n : Nat) : String := "instanceid" ++ toString n

/-- Predicate of the instance existence query: definition_id AND user_id
AND scope. -/
def isUserInstance (definition_id user_id scope : String) (r : SettingsInstanceRow) : Bool :=
  r.definition_id == definition_id && r.user_id == user_id && r.scope == scope

/-- Loop body of _create_settings_instances: select by (definition_id,
user_id, scope) through scalar_one_or_none, insert-if-absent with a fresh
id, collecting the names of the created instances. -/
def instancesGo (u now : String) :
    List SettingsInstanceData → Store → Nat → List String → Store × Nat × List String × Option String
  | [], s, seed, created => (s, seed, created, none)
  | i :: rest, s, seed, created =>
    match s.settings_instances.filter (isUserInstance i.definition_id u i.scope) with
    | [] =>
        let row : SettingsInstanceRow :=
          { id := uuidHex seed, definition_id := i.definition_id, name := i.name
          , value := i.value, scope := i.scope, user_id := u, page_id := none
          , created_at := now, updated_at := now }
        instancesGo u now rest
          { s with settings_instances := s.settings_instances ++ [row] }
          (seed + 1) (created ++ [i.name])
    | [_] => instancesGo u now rest s seed created
    | _ :: _ :: _ => (s, seed, created, some multipleRowsMessage)

/-- Models _create_settings_instances. -/
def create_settings_instances (user_id : String) (w : World) : OpResult × World :=
  let r := instancesGo user_id w.now settings_instances_data w.pending w.uuidSeed []
  let w := { w with pending := r.1, uuidSeed := r.2.1 }
  match r.2.2.2 with
  | none => ({ success := true, created_instances := some r.2.2.1 }, w)
  | some e => ({ success := false, error := some e }, w)

/-- The plugin row inserted by _create_database_records. -/
def mkPluginRow (user_id now : String) : PluginRow :=
  { id := user_id ++ "_" ++ plugin_data.plugin_slug
  , name := plugin_data.name
  , description := plugin_data.description
  , version := plugin_data.version
  , type := plugin_data.type
  , enabled := true
  , icon := some plugin_data.icon
  , category := some plugin_data.category
  , status := "activated"
  , official := plugin_data.official
  , author := plugin_data.author
  , last_updated := "2025-03-06"
  , compatibility := plugin_data.compatibility
  , downloads := 0
  , scope := some plugin_data.scope
  , bundle_method := some plugin_data.bundle_method
  , bundle_location := some plugin_data.bundle_location
  , is_local := plugin_data.is_local
  , long_description := some plugin_data.long_description
  , config_fields := none
  , messages := none
  , dependencies := none
  , created_at := now
  , updated_at := now
  , user_id := user_id
  , plugin_slug := some plugin_data.plugin_slug
  , source_type := some plugin_data.source_type
  , source_url := some plugin_data.source_url
  , update_check_url := some plugin_data.update_check_url
  , last_update_check := plugin_data.last_update_check
  , update_available := plugin_data.update_available
  , latest_version := plugin_data.latest_version
  , installation_type := some plugin_data.installation_type
  , permissions := Json.arrL (plugin_data.permissions.map Json.str) }

/-- A module row inserted by _create_database_records (the JSON columns
hold the json.dumps of the descriptor fields). -/
def mkModuleRow (user_id plugin_id now : String) (m : ModuleDescriptor) : ModuleRow :=
  { id := user_id ++ "_" ++ m.name
  , plugin_id := plugin_id
  , name := m.name
  , display_name := some m.display_name
  , description := some m.description
  , icon := some m.icon
  , category := some m.category
  , enabled := true
  , priority := m.priority
  , props := some m.props
  , config_fields := some m.config_fields
  , messages := some m.messages
  , required_services := some m.required_services
  , dependencies := some m.dependencies
  , layout := some m.layout
  , tags := some m.tags
  , created_at := now
  , updated_at := now
  , user_id := user_id }

/-- Models _create_database_records: existence check, definition and
instance creation, then the plugin insert and one module insert per
descriptor, all on the pending store. -/
def create_database_records (user_id : String) (w : World) : OpResult × World :=
  let cw := check_existing_plugin user_id w
  if cw.1.exists_ then
    ({ success := false, error := some "Plugin already exists for user" }, cw.2)
  else
    let dw := ensure_settings_definitions cw.2
    if !dw.1.success then dw
    else
      let iw := create_settings_instances user_id dw.2
      if !iw.1.success then iw
      else
        let w := iw.2
        let plugin_id := user_id ++ "_" ++ plugin_data.plugin_slug
        let w := { w with pending :=
          { w.pending with plugins := w.pending.plugins ++ [mkPluginRow user_id w.now] } }
        let w := { w with pending :=
          { w.pending with modules :=
              w.pending.modules ++ module_data.map (mkModuleRow user_id plugin_id w.now) } }
        ({ success := true
         , plugin_id := some plugin_id
         , modules_created := some (module_data.map (fun m => m.name))
         , settings_created := iw.1.created_instances }, w)

/-- Models _perform_user_installation (the database part of a user
install; the result drops the settings_created key). -/
def perform_user_installation (user_id : String) (w : World) : OpResult × World :=
  let rw := create_database_records user_id w
  if !rw.1.success then rw
  else
    ({ success := true
     , plugin_id := rw.1.plugin_id
     , plugin_slug := some plugin_data.plugin_slug
     , plugin_name := some plugin_data.name
     , modules_created := rw.1.modules_created }, rw.2)

/-- Models BaseLifecycleManager.install_for_user of the in-file minimal
base class: an active-user guard around _perform_user_installation. -/
def install_for_user (user_id : String) (active : List String) (w : World) :
    OpResult × World × List String :=
  if active.contains user_id then
    ({ success := false, error := some "Plugin already installed for user" }, w, active)
  else
    let rw := perform_user_installation user_id w
    if rw.1.success then (rw.1, rw.2, user_id :: active) else (rw.1, rw.2, active)

/-- The relative paths copied into the shared directory (the source tree
after the exclusion list; the exact contents are not observed by any
claim). -/
def pluginSourceFiles : List String :=
  ["package.json", "dist/remoteEntry.js", "src/index.tsx", "lifecycle_manager.py"]

/-- Models _copy_plugin_files_impl: either the directory-level copy
raises (copyFail) or every file is copied into the shared directory. -/
def copy_plugin_files (w : World) : OpResult × World :=
  if w.copyFail then
    ({ success := false, error := some "copy failed" }, w)
  else
    ({ success := true, files_copied := some pluginSourceFiles }
    , { w with files := w.files ++ pluginSourceFiles.filter (fun f => !w.files.contains f) })

/-- The shared storage path of this plugin version. -/
def sharedPathString : String := "plugins/shared/BrainDriveSettings/v1.0.3"

/-- The part of install_plugin after the existence gate: shared-directory
creation and file copy, the transactional database installation, a
verification read, then commit on success and rollback on a database
failure. -/
def install_plugin_go (user_id : String) (active : List String) (w : World) :
    OpResult × World × List String :=
  let pw := copy_plugin_files w
  if !pw.1.success then (pw.1, pw.2, active)
  else
    let rwa := install_for_user user_id active pw.2
    if rwa.1.success then
      let vw := check_existing_plugin user_id rwa.2.1
      if !vw.1.exists_ then
        ({ success := false, error := some "Installation verification failed" }, vw.2, rwa.2.2)
      else
        let r := { rwa.1 with
                    shared_path := some sharedPathString,
                    files_copied := pw.1.files_copied }
        (r, { vw.2 with committed := vw.2.pending }, rwa.2.2)
    else
      (rwa.1, { rwa.2.1 with pending := rwa.2.1.committed }, rwa.2.2)

/-- Models install_plugin: the existence check gate in front of
install_plugin_go. -/
def install_plugin (user_id : String) (active : List String) (w : World) :
    OpResult × World × List String :=
  let cw := check_existing_plugin user_id w
  if cw.1.exists_ then
    ({ success := false, error := some "Plugin already installed for user"
     , plugin_id := cw.1.plugin_id }, cw.2, active)
  else
    install_plugin_go user_id active cw.2

/-- Models _delete_database_records: delete the module rows for
(user_id, plugin_id) first, then the plugin row, on the pending store. -/
def delete_database_records (user_id plugin_id : String) (w : World) : OpResult × World :=
  let s := w.pending
  let deleted_modules :=
    (s.modules.filter (fun m => m.user_id == user_id && m.plugin_id == plugin_id)).length
  let s := { s with modules :=
    s.modules.filter (fun m => !(m.user_id == user_id && m.plugin_id == plugin_id)) }
  let s := { s with plugins :=
    s.plugins.filter (fun p => !(p.user_id == user_id && p.id == plugin_id)) }
  ({ success := true, deleted_modules := some deleted_modules }, { w with pending := s })

/-- Models delete_plugin: existence check, record deletion, commit on
success. -/
def delete_plugin (user_id : String) (w : World) : OpResult × World :=
  let cw := check_existing_plugin user_id w
  if !cw.1.exists_ then
    ({ success := false, error := some "Plugin not found for user" }, cw.2)
  else
    let plugin_id := cw.1.plugin_id.getD ""
    let dw := delete_database_records user_id plugin_id cw.2
    if dw.1.success then (dw.1, { dw.2 with committed := dw.2.pending }) else dw

/-- Models get_plugin_status: a pure existence read. -/
def get_plugin_status (user_id : String) (w : World) : StatusResult × World :=
  let cw := check_existing_plugin user_id w
  if cw.1.exists_ then
    ({ installed := true, plugin_id := cw.1.plugin_id
     , plugin_slug := some plugin_data.plugin_slug
     , plugin_name := some plugin_data.name
     , version := some plugin_data.version }, cw.2)
  else
    ({ installed := false }, cw.2)

/-- Insert-or-replace on a string-keyed dictionary, preserving insertion
order (Python dict assignment). -/
def dictInsert {α : Type} (acc : List (String × α)) (k : String) (v : α) : List (String × α) :=
  if acc.any (fun e => e.1 == k) then
    acc.map (fun e => if e.1 == k then (k, v) else e)
  else acc ++ [(k, v)]

/-- The JSON configuration exported from one module row (NULL columns
read as empty documents). -/
def exportModuleConfig (m : ModuleRow) : ModuleConfigExport :=
  { props := m.props.getD (Json.objL [])
  , config_fields := m.config_fields.getD (Json.objL [])
  , messages := m.messages.getD (Json.objL [])
  , layout := m.layout.getD (Json.objL []) }

/-- Predicate of the module export query: user_id = :user_id AND
plugin_id LIKE :plugin_pattern. -/
def isExportedModule (user_id : String) (m : ModuleRow) : Bool :=
  m.user_id == user_id && likeMatch (user_id ++ "_" ++ plugin_data.plugin_slug) m.plugin_id

/-- The export_data dictionary computed by _export_user_data: the
plugin-level JSON columns and the JSON columns of every module whose
plugin_id LIKE-matches the composite id pattern. -/
def exportDataOf (user_id : String) (w : World) : ExportData :=
  let plugin_row := w.pending.plugins.find? (isUserPlugin user_id)
  let plugin_config : Option PluginConfigExport :=
    match plugin_row with
    | none => none
    | some p => some
        { config_fields := p.config_fields.getD (Json.objL [])
        , messages := p.messages.getD (Json.objL [])
        , dependencies := p.dependencies.getD (Json.arrL []) }
  let rows := w.pending.modules.filter (isExportedModule user_id)
  let modules_config :=
    rows.foldl (fun acc m => dictInsert acc m.name (exportModuleConfig m)) []
  { plugin_config := plugin_config, modules_config := modules_config
  , export_timestamp := w.now }

/-- Models _export_user_data. -/
def export_user_data (user_id : String) (w : World) : ExportResult × World :=
  ({ success := true, data := some (exportDataOf user_id w) }, w)

/-- Effect of one module-configuration UPDATE (keyed by user_id and the
composite module id) on one module row. -/
def applyModuleEntry (user_id : String) (m : ModuleRow) (e : String × ModuleConfigExport) :
    ModuleRow :=
  if m.user_id == user_id && m.id == user_id ++ "_" ++ e.1 then
    { m with
        props := some e.2.props,
        config_fields := some e.2.config_fields,
        messages := some e.2.messages,
        layout := some e.2.layout }
  else m

/-- An UPDATE over the module table: every pending module row is mapped
through the row transformer. -/
def mapModules (f : ModuleRow → ModuleRow) (w : World) : World :=
  let touched := w.pending.modules.map f
  { w with pending := { w.pending with modules := touched } }

/-- One step of the module-configuration import: the UPDATE keyed by
user_id and the composite module id. -/
def applyModuleImport (user_id : String) (w : World) (e : String × ModuleConfigExport) : World :=
  mapModules (fun m => applyModuleEntry user_id m e) w

/-- Effect of the plugin-level configuration UPDATE (keyed by user_id
and the composite plugin id) on one plugin row. -/
def pluginTouch (user_id : String) (pc : PluginConfigExport) (p : PluginRow) : PluginRow :=
  if p.user_id == user_id && p.id == user_id ++ "_" ++ plugin_data.plugin_slug then
    { p with
        config_fields := some pc.config_fields,
        messages := some pc.messages,
        dependencies := some pc.dependencies }
  else p

/-- Models _import_user_data: re-apply the exported plugin-level and
module-level JSON columns onto the fresh rows; every exception inside is
caught and logged (importRaise models a raise before the first update
statement). -/
def user_data_import (user_id : String) (ud : ExportData) (w : World) : World :=
  if w.importRaise then w
  else
    let w :=
      match ud.plugin_config with
      | none => w
      | some pc =>
        let touched := w.pending.plugins.map (pluginTouch user_id pc)
        { w with pending := { w.pending with plugins := touched } }
    ud.modules_config.foldl (applyModuleImport user_id) w

/-- Models update_plugin: export, delete the current installation,
install the new version (an identical adapter), then best-effort
re-import of the exported configuration followed by a commit.  The
target adapter starts with its own active-user set. -/
def update_plugin (user_id : String) (targetActive : List String) (w : World) :
    OpResult × World × List String :=
  let ew := export_user_data user_id w
  let user_data : Option ExportData := if ew.1.success then ew.1.data else none
  let dw := delete_plugin user_id ew.2
  if !dw.1.success then (dw.1, dw.2, targetActive)
  else
    let iwa := install_plugin user_id targetActive dw.2
    if !iwa.1.success then iwa
    else
      match user_data with
      | some ud =>
        let w := user_data_import user_id ud iwa.2.1
        (iwa.1, { w with committed := w.pending }, iwa.2.2)
      | none => iwa

/-! ## Filesystem inspection (validation and health check) -/

/-- Contents of the package.json manifest when the file exists. -/
inductive ManifestFile where
  | invalidJson (msg : String)
  | validJson (keys : List String)
  deriving DecidableEq

/-- Static view of the installed plugin directory as the two read-only
verbs observe it: the manifest, the bundle file with its size, the src
assets directory with its entry count, and a switch standing for a
filesystem inspection that raises. -/
structure PluginDir where
  package_json : Option ManifestFile
  bundle_size : Option Nat
  src_entries : Option Nat
  fs_error : Option String
  deriving DecidableEq

structure ValidationResult where
  valid : Bool
  error : Option String := none
  deriving DecidableEq

/-- Models _validate_installation_impl: missing required files first
(manifest before bundle), then manifest parse and required fields (name
before version), then a non-empty bundle. -/
def validate_installation (d : PluginDir) : ValidationResult :=
  match d.fs_error with
  | some e => { valid := false, error := some e }
  | none =>
    let missing_files :=
      (if d.package_json.isSome then [] else ["package.json"]) ++
        (if d.bundle_size.isSome then [] else ["dist/remoteEntry.js"])
    if !missing_files.isEmpty then
      { valid := false
      , error := some ("BrainDriveSettings: Missing required files: " ++ String.intercalate ", " missing_files) }
    else
      match d.package_json with
      | none =>
        { valid := false
        , error := some "BrainDriveSettings: Invalid or missing package.json: file not found" }
      | some (.invalidJson e) =>
        { valid := false
        , error := some ("BrainDriveSettings: Invalid or missing package.json: " ++ e) }
      | some (.validJson keys) =>
        if !keys.contains "name" then
          { valid := false
          , error := some "BrainDriveSettings: package.json missing required field: name" }
        else if !keys.contains "version" then
          { valid := false
          , error := some "BrainDriveSettings: package.json missing required field: version" }
        else if d.bundle_size.getD 0 == 0 then
          { valid := false
          , error := some "BrainDriveSettings: Bundle file (remoteEntry.js) is empty" }
        else
          { valid := true }

structure HealthDetails where
  bundle_exists : Bool
  bundle_size : Nat
  package_json_valid : Bool
  assets_present : Bool
  deriving DecidableEq

structure HealthResult where
  healthy : Bool
  details : Option HealthDetails := none
  error : Option String := none
  deriving DecidableEq

/-- Models _get_plugin_health_impl: the findings only fill the details
dictionary, and healthy is false exactly when the inspection raises. -/
def get_plugin_health (d : PluginDir) : HealthResult :=
  match d.fs_error with
  | some e => { healthy := false, error := some e }
  | none =>
    { healthy := true
    , details := some
        { bundle_exists := d.bundle_size.isSome
        , bundle_size := d.bundle_size.getD 0
        , package_json_valid := match d.package_json with
            | some (.validJson _) => true
            | _ => false
        , assets_present := match d.src_entries with
            | some (_ + 1) => true
            | _ => false } }

/-- Folding install_plugin over a list of users, each through its own
fresh manager instance. -/
def installMany (us : List String) (w : World) : World :=
  us.foldl (fun w u => (install_plugin u [] w).2.1) w

/-! ## The result of a fresh, fault-free install (named for reuse in the
symbolic-execution lemmas below) -/

/-- The result dictionary of a successful fresh install. -/
def freshInstallResult (u : String) : OpResult :=
  { success := true
  , plugin_id := some (u ++ "_" ++ plugin_data.plugin_slug)
  , plugin_slug := some plugin_data.plugin_slug
  , plugin_name := some plugin_data.name
  , modules_created := some (module_data.map (fun m => m.name))
  , shared_path := some sharedPathString
  , files_copied := some pluginSourceFiles }

/-- The store produced by a successful fresh install for user u on the
pending store of w: the definition and instance creation loops followed
by the plugin and module inserts. -/
def installedStoreOf (u : String) (w : World) : Store :=
  let E := ensureDefsGo w.now PLUGIN_SETTINGS_DEFINITIONS w.pending
  let I := instancesGo u w.now settings_instances_data E.1 w.uuidSeed []
  { I.1 with
      plugins := I.1.plugins ++ [mkPluginRow u w.now],
      modules := I.1.modules ++ module_data.map (mkModuleRow u (u ++ "_" ++ plugin_data.plugin_slug) w.now) }

/-- The instance-id seed left behind by a successful fresh install. -/
def installedSeedOf (u : String) (w : World) : Nat :=
  (instancesGo u w.now settings_instances_data
    (ensureDefsGo w.now PLUGIN_SETTINGS_DEFINITIONS w.pending).1 w.uuidSeed []).2.1

/-- The world produced by a successful fresh install (committed). -/
def installedWorldOf (u : String) (w : World) : World :=
  { w with
      committed := installedStoreOf u w
    , pending := installedStoreOf u w
    , files := w.files ++ pluginSourceFiles.filter (fun f => !w.files.contains f)
    , checkFaults := []
    , uuidSeed := installedSeedOf u w }

/-- The store left by _delete_database_records for (u, plugin_id): the
module rows for the pair removed first, then the plugin row. -/
def deletedStoreOf (u plugin_id : String) (s : Store) : Store :=
  { s with
      modules := s.modules.filter (fun m => !(m.user_id == u && m.plugin_id == plugin_id)),
      plugins := s.plugins.filter (fun q => !(q.user_id == u && q.id == plugin_id)) }

/-! ## Concrete example worlds -/

def emptyStore : Store :=
  { plugins := [], modules := [], settings_definitions := [], settings_instances := [] }

/-- A quiescent, fault-free world over a given store. -/
def mkWorld (s : Store) : World :=
  { committed := s, pending := s, files := [], checkFaults := [], copyFail := false
  , importRaise := false, uuidSeed := 0, now := "t0" }

def freshWorld : World := mkWorld emptyStore

/-- A store holding no plugin row at all but one pre-existing theme
settings instance owned by user u1. -/
def preInstanceStore : Store :=
  { plugins := [], modules := [], settings_definitions := []
  , settings_instances :=
      [{ id := "i0", definition_id := "theme_settings", name := "Theme Settings"
       , value := "v", scope := "user", user_id := "u1", page_id := none
       , created_at := "t", updated_at := "t" }] }

def preInstanceWorld : World := mkWorld preInstanceStore

/-- The plugin row of an installed user u1 carrying distinctive JSON
configuration values. -/
def seededPlugin : PluginRow :=
  { mkPluginRow "u1" "t0" with
      config_fields := some (Json.str "cf0"),
      messages := some (Json.str "ms0"),
      dependencies := some (Json.str "dp0") }

/-- An installed store for user u1 whose module rows carry distinctive
JSON configuration values. -/
def seededStore : Store :=
  { plugins := [seededPlugin]
  , modules :=
      (module_data.map (mkModuleRow "u1" ("u1" ++ "_" ++ plugin_data.plugin_slug) "t0")).map
        (fun m => { m with props := some (Json.str ("pp-" ++ m.name)) })
  , settings_definitions := PLUGIN_SETTINGS_DEFINITIONS.map (fun d => mkSettingsDefinitionRow d "t0")
  , settings_instances := [] }

def seededWorld : World := mkWorld seededStore

/-! ## Generic list and string lemmas -/

theorem find?_of_filter_eq_singleton {α : Type} {l : List α} {p : α → Bool} {a : α}
    (h : l.filter p = [a]) : l.find? p = some a := by
  induction l with
  | nil => simp at h
  | cons x xs ih =>
    by_cases hx : p x
    · rw [List.filter_cons_of_pos hx] at h
      obtain ⟨rfl, -⟩ := List.cons_eq_cons.mp h
      exact List.find?_cons_of_pos _ hx
    · rw [List.filter_cons_of_neg (by simpa using hx)] at h
      rw [List.find?_cons_of_neg _ (by simpa using hx)]
      exact ih h

theorem mem_of_filter_eq_singleton {α : Type} {l : List α} {p : α → Bool} {a x : α}
    (h : l.filter p = [a]) (hx : x ∈ l) (hpx : p x) : x = a := by
  have : x ∈ l.filter p := List.mem_filter.mpr ⟨hx, hpx⟩
  rw [h] at this
  simpa using this

theorem find?_none_of_filter_eq_nil {α : Type} {l : List α} {p : α → Bool}
    (h : l.filter p = []) : l.find? p = none := by
  rw [List.find?_eq_none]
  intro x hx
  exact (List.filter_eq_nil_iff.mp h) x hx

theorem string_append_left_cancel {u a b : String} (h : u ++ a = u ++ b) : a = b := by
  have hd := congrArg String.data h
  simp only [String.data_append] at hd
  exact String.ext (List.append_cancel_left hd)

/-! ## Properties of the LIKE matcher -/

theorem likeMatchL_tails {ps cs suf : List Char} (hmem : suf ∈ cs.tails)
    (h : likeMatchL ps suf = true) : likeMatchL ('%' :: ps) cs = true := by
  simp only [likeMatchL, reduceIte, List.any_eq_true]
  exact ⟨suf, hmem, h⟩

theorem likeMatchL_self (l : List Char) : likeMatchL l l = true := by
  induction l with
  | nil => simp [likeMatchL]
  | cons c l ih =>
    by_cases hc : c = '%'
    · subst hc
      exact likeMatchL_tails ((List.mem_tails _ _).mpr (List.suffix_cons _ _)) ih
    · simp [likeMatchL, hc, ih]

/-- Every string LIKE-matches itself, in particular the composite-id
pattern of the export query matches the composite id. -/
theorem likeMatch_self (s : String) : likeMatch s s = true := likeMatchL_self s.toList

/-! ## C8: health check -/

/-- C8: the health check returns healthy exactly when the filesystem
inspection completes without raising an exception: healthy equals the
absence of an inspection error regardless of the bundle, manifest and
assets findings (which only populate details), and the error field
carries exactly the inspection error. -/
theorem C8_health_only_fails_on_exception (d : PluginDir) :
    (get_plugin_health d).healthy = d.fs_error.isNone ∧
    (get_plugin_health d).error = d.fs_error := by
  cases h : d.fs_error <;> simp [get_plugin_health, h]

/-! ## C7: installation validation -/

/-- C7: validation returns the first failing condition among required
files present (naming every missing path, manifest before bundle),
manifest parses with the name and version fields, and a non-empty
bundle; a directory missing the bundle or the manifest yields an invalid
result whose error names the missing file path. -/
theorem C7_validate_first_failure (d : PluginDir) (hfs : d.fs_error = none) :
    (d.package_json.isSome = true → d.bundle_size = none →
      validate_installation d =
        { valid := false
        , error := some "BrainDriveSettings: Missing required files: dist/remoteEntry.js" }) ∧
    (d.package_json = none → d.bundle_size.isSome = true →
      validate_installation d =
        { valid := false
        , error := some "BrainDriveSettings: Missing required files: package.json" }) ∧
    (d.package_json = none → d.bundle_size = none →
      validate_installation d =
        { valid := false
        , error := some "BrainDriveSettings: Missing required files: package.json, dist/remoteEntry.js" }) ∧
    (∀ e n, d.package_json = some (.invalidJson e) → d.bundle_size = some n →
      validate_installation d =
        { valid := false
        , error := some ("BrainDriveSettings: Invalid or missing package.json: " ++ e) }) ∧
    (∀ keys n, d.package_json = some (.validJson keys) → d.bundle_size = some n →
      "name" ∉ keys →
      validate_installation d =
        { valid := false
        , error := some "BrainDriveSettings: package.json missing required field: name" }) ∧
    (∀ keys n, d.package_json = some (.validJson keys) → d.bundle_size = some n →
      "name" ∈ keys → "version" ∉ keys →
      validate_installation d =
        { valid := false
        , error := some "BrainDriveSettings: package.json missing required field: version" }) ∧
    (∀ keys, d.package_json = some (.validJson keys) → d.bundle_size = some 0 →
      "name" ∈ keys → "version" ∈ keys →
      validate_installation d =
        { valid := false
        , error := some "BrainDriveSettings: Bundle file (remoteEntry.js) is empty" }) ∧
    (∀ keys n, d.package_json = some (.validJson keys) → d.bundle_size = some (n + 1) →
      "name" ∈ keys → "version" ∈ keys →
      validate_installation d = { valid := true, error := none }) := by
  obtain ⟨pj, bs, se, fe⟩ := d
  cases hfs
  refine ⟨?_, ?_, ?_, ?_, ?_, ?_, ?_, ?_⟩
  · rintro hpj rfl
    obtain ⟨mf, rfl⟩ := Option.isSome_iff_exists.mp hpj
    simp only [validate_installation]
    rfl
  · rintro rfl hbs
    obtain ⟨n, rfl⟩ := Option.isSome_iff_exists.mp hbs
    simp only [validate_installation]
    rfl
  · rintro rfl rfl
    simp only [validate_installation]
    rfl
  · rintro e n rfl rfl
    simp [validate_installation]
  · rintro keys n rfl rfl hname
    simp [validate_installation, hname]
  · rintro keys n rfl rfl hname hver
    simp [validate_installation, hname, hver]
  · rintro keys rfl rfl hname hver
    simp [validate_installation, hname, hver]
  · rintro keys n rfl rfl hname hver
    simp [validate_installation, hname, hver]

/-- C7 witness: on a directory with a well-formed manifest but no bundle
file, validation fails naming dist/remoteEntry.js. -/
theorem C7_validate_first_failure_witness :
    validate_installation
      { package_json := some (.validJson ["name", "version"])
      , bundle_size := none, src_entries := none, fs_error := none } =
      { valid := false
      , error := some "BrainDriveSettings: Missing required files: dist/remoteEntry.js" } :=
  (C7_validate_first_failure
     { package_json := some (.validJson ["name", "version"])
     , bundle_size := none, src_entries := none, fs_error := none } rfl).1 rfl rfl

/-! ## C2: re-installing an installed user -/

/-- C2: when a plugin row already exists for the user, install_plugin
returns the structured already-installed failure carrying the existing
plugin id, the whole world (committed and pending stores, files, fault
state) is left unchanged, the active set is unchanged, and in particular
the unique existing plugin row for the user persists unchanged. -/
theorem C2_reinstall_is_noop_failure (u : String) (a : List String) (w : World) (p : PluginRow)
    (hcf : w.checkFaults = [])
    (hfind : w.pending.plugins.find? (isUserPlugin u) = some p) :
    (install_plugin u a w).1 =
      { success := false, error := some "Plugin already installed for user"
      , plugin_id := some p.id } ∧
    (install_plugin u a w).2.1 = w ∧
    (install_plugin u a w).2.2 = a ∧
    (∀ q, w.pending.plugins.filter (isUserPlugin u) = [q] →
      (install_plugin u a w).2.1.pending.plugins.filter (isUserPlugin u) = [q]) := by
  obtain ⟨cm, pnd, fl, cf, cpf, imr, us, nw⟩ := w
  simp only at hcf hfind
  subst hcf
  simp [install_plugin, check_existing_plugin, popCheckFault, hfind]

set_option maxRecDepth 40000 in
/-- C2 witness: re-installing user u1 on the seeded installed world. -/
theorem C2_reinstall_is_noop_failure_witness :
    (install_plugin "u1" [] seededWorld).1 =
      { success := false, error := some "Plugin already installed for user"
      , plugin_id := some seededPlugin.id } ∧
    (install_plugin "u1" [] seededWorld).2.1 = seededWorld ∧
    (install_plugin "u1" [] seededWorld).2.2 = [] ∧
    (∀ q, seededWorld.pending.plugins.filter (isUserPlugin "u1") = [q] →
      (install_plugin "u1" [] seededWorld).2.1.pending.plugins.filter (isUserPlugin "u1") = [q]) :=
  C2_reinstall_is_noop_failure "u1" [] seededWorld seededPlugin rfl (by decide)


/-! ## Execution lemmas for the install path -/

theorem check_world (u : String) (w : World) :
    (check_existing_plugin u w).2 = { w with checkFaults := w.checkFaults.tail } := by
  simp only [check_existing_plugin, popCheckFault]
  split
  · rfl
  · split <;> rfl

theorem ensureDefsGo_tables (now : String) (ds : List SettingsDefinitionData) (s : Store) :
    (ensureDefsGo now ds s).1.plugins = s.plugins ∧
    (ensureDefsGo now ds s).1.modules = s.modules ∧
    (ensureDefsGo now ds s).1.settings_instances = s.settings_instances ∧
    ∃ t, (ensureDefsGo now ds s).1.settings_definitions = s.settings_definitions ++ t := by
  induction ds generalizing s with
  | nil => exact ⟨rfl, rfl, rfl, [], by simp [ensureDefsGo]⟩
  | cons d rest ih =>
    simp only [ensureDefsGo]
    split
    · obtain ⟨h1, h2, h3, t, h4⟩ := ih { s with settings_definitions := s.settings_definitions ++ [mkSettingsDefinitionRow d now] }
      exact ⟨h1, h2, h3, mkSettingsDefinitionRow d now :: t, by simpa using h4⟩
    · exact ih s
    · exact ⟨rfl, rfl, rfl, [], by simp⟩

theorem instancesGo_tables (u now : String) (items : List SettingsInstanceData) (s : Store)
    (seed : Nat) (created : List String) :
    (instancesGo u now items s seed created).1.plugins = s.plugins ∧
    (instancesGo u now items s seed created).1.modules = s.modules ∧
    (instancesGo u now items s seed created).1.settings_definitions = s.settings_definitions ∧
    ∃ t, (instancesGo u now items s seed created).1.settings_instances = s.settings_instances ++ t := by
  induction items generalizing s seed created with
  | nil => exact ⟨rfl, rfl, rfl, [], by simp [instancesGo]⟩
  | cons i rest ih =>
    simp only [instancesGo]
    split
    · obtain ⟨h1, h2, h3, t, h4⟩ := ih _ (seed + 1) (created ++ [i.name])
      exact ⟨h1, h2, h3, _ :: t, by simpa using h4⟩
    · exact ih s seed created
    · exact ⟨rfl, rfl, rfl, [], by simp⟩

theorem install_plugin_go_fresh (u : String) (a : List String) (w : World)
    (hmem : a.contains u = false)
    (hcf : w.checkFaults = []) (hcp : w.copyFail = false)
    (hfind : w.pending.plugins.find? (isUserPlugin u) = none)
    (hE : (ensureDefsGo w.now PLUGIN_SETTINGS_DEFINITIONS w.pending).2 = none)
    (hI : (instancesGo u w.now settings_instances_data
            (ensureDefsGo w.now PLUGIN_SETTINGS_DEFINITIONS w.pending).1 w.uuidSeed []).2.2.2 = none) :
    install_plugin_go u a w = (freshInstallResult u, installedWorldOf u w, u :: a) := by
  obtain ⟨cm, pnd, fl, cf, cpf, imr, us, nw⟩ := w
  simp only at hcf hcp hfind hE hI
  subst hcf hcp
  have hplug : (instancesGo u nw settings_instances_data
      (ensureDefsGo nw PLUGIN_SETTINGS_DEFINITIONS pnd).1 us []).1.plugins = pnd.plugins := by
    rw [(instancesGo_tables u nw settings_instances_data _ us []).1,
        (ensureDefsGo_tables nw PLUGIN_SETTINGS_DEFINITIONS pnd).1]
  have hmk : isUserPlugin u (mkPluginRow u nw) = true := by
    simp [isUserPlugin, mkPluginRow]
  have hfind2 : ((instancesGo u nw settings_instances_data
      (ensureDefsGo nw PLUGIN_SETTINGS_DEFINITIONS pnd).1 us []).1.plugins
        ++ [mkPluginRow u nw]).find? (isUserPlugin u) = some (mkPluginRow u nw) := by
    rw [List.find?_append, hplug, hfind]
    simp [List.find?_cons, hmk]
  simp only [install_plugin_go, copy_plugin_files, if_neg, Bool.false_eq_true, if_false,
    install_for_user, hmem, perform_user_installation, create_database_records,
    check_existing_plugin, popCheckFault, List.headD_nil, List.tail_nil, hfind,
    ensure_settings_definitions, create_settings_instances, hE, hI, hfind2,
    freshInstallResult, installedWorldOf, installedStoreOf, installedSeedOf]
  simp [hfind2]

theorem ensureDefsGo_ok (now : String) :
    ∀ (ds : List SettingsDefinitionData) (s : Store),
      (∀ d ∈ ds, (s.settings_definitions.filter (fun r => r.id == d.id)).length ≤ 1) →
      (ds.map (fun d => d.id)).Nodup →
      (ensureDefsGo now ds s).2 = none := by
  intro ds
  induction ds with
  | nil => intro s _ _; simp [ensureDefsGo]
  | cons d rest ih =>
    intro s hcount hnodup
    simp only [List.map_cons, List.nodup_cons] at hnodup
    simp only [ensureDefsGo]
    split
    · next hf =>
      apply ih
      · intro d2 hd2
        have hne : d.id ≠ d2.id := fun heq =>
          hnodup.1 (heq ▸ List.mem_map_of_mem (fun x => x.id) hd2)
        have hrow : ((mkSettingsDefinitionRow d now).id == d2.id) = false := by
          simp [mkSettingsDefinitionRow, hne]
        have hbase := hcount d2 (List.mem_cons_of_mem _ hd2)
        simpa [List.filter_append, hrow] using hbase
      · exact hnodup.2
    · next hf => exact ih s (fun d2 hd2 => hcount d2 (List.mem_cons_of_mem _ hd2)) hnodup.2
    · next x y tl hf =>
      have := hcount d (List.mem_cons_self _ _)
      rw [hf] at this
      simp at this

theorem instancesGo_ok (u now : String) :
    ∀ (items : List SettingsInstanceData) (s : Store) (seed : Nat) (created : List String),
      (∀ i ∈ items, (s.settings_instances.filter (isUserInstance i.definition_id u i.scope)).length ≤ 1) →
      (items.map (fun i => i.definition_id)).Nodup →
      (instancesGo u now items s seed created).2.2.2 = none := by
  intro items
  induction items with
  | nil => intro s seed created _ _; simp [instancesGo]
  | cons i rest ih =>
    intro s seed created hcount hnodup
    simp only [List.map_cons, List.nodup_cons] at hnodup
    simp only [instancesGo]
    split
    · next hf =>
      apply ih
      · intro j hj
        have hne : i.definition_id ≠ j.definition_id := fun heq =>
          hnodup.1 (heq ▸ List.mem_map_of_mem (fun x => x.definition_id) hj)
        have hrow : isUserInstance j.definition_id u j.scope
            { id := uuidHex seed, definition_id := i.definition_id, name := i.name
            , value := i.value, scope := i.scope, user_id := u, page_id := none
            , created_at := now, updated_at := now } = false := by
          simp [isUserInstance]
          intro heq
          exact absurd heq hne
        have hbase := hcount j (List.mem_cons_of_mem _ hj)
        simpa [List.filter_append, hrow] using hbase
      · exact hnodup.2
    · next hf => exact ih s seed created (fun j hj => hcount j (List.mem_cons_of_mem _ hj)) hnodup.2
    · next x y tl hf =>
      have := hcount i (List.mem_cons_self _ _)
      rw [hf] at this
      simp at this

theorem instancesGo_fresh (u now : String) :
    ∀ (items : List SettingsInstanceData) (s : Store) (seed : Nat) (created : List String),
      (∀ i ∈ items, s.settings_instances.filter (isUserInstance i.definition_id u i.scope) = []) →
      (items.map (fun i => i.definition_id)).Nodup →
      ∃ t, (instancesGo u now items s seed created).1.settings_instances = s.settings_instances ++ t ∧
        t.map (fun r => (r.definition_id, r.user_id, r.scope)) =
          items.map (fun i => (i.definition_id, u, i.scope)) ∧
        (instancesGo u now items s seed created).2.2.1 = created ++ items.map (fun i => i.name) := by
  intro items
  induction items with
  | nil =>
    intro s seed created _ _
    exact ⟨[], by simp [instancesGo], by simp, by simp [instancesGo]⟩
  | cons i rest ih =>
    intro s seed created hnil hnodup
    simp only [List.map_cons, List.nodup_cons] at hnodup
    simp only [instancesGo]
    split
    rotate_left
    · next hf =>
      rw [hnil i (List.mem_cons_self _ _)] at hf
      cases hf
    · next x y tl hf =>
      rw [hnil i (List.mem_cons_self _ _)] at hf
      cases hf
    next hf =>
    have hrest : ∀ j ∈ rest,
        ({ s with settings_instances := s.settings_instances ++
            [{ id := uuidHex seed, definition_id := i.definition_id, name := i.name
             , value := i.value, scope := i.scope, user_id := u, page_id := none
             , created_at := now, updated_at := now }] } : Store).settings_instances.filter
          (isUserInstance j.definition_id u j.scope) = [] := by
      intro j hj
      have hne : i.definition_id ≠ j.definition_id := fun heq =>
        hnodup.1 (heq ▸ List.mem_map_of_mem (fun x => x.definition_id) hj)
      have hrow : isUserInstance j.definition_id u j.scope
          { id := uuidHex seed, definition_id := i.definition_id, name := i.name
          , value := i.value, scope := i.scope, user_id := u, page_id := none
          , created_at := now, updated_at := now } = false := by
        simp [isUserInstance]
        intro heq
        exact absurd heq hne
      simp [List.filter_append, hrow, hnil j (List.mem_cons_of_mem _ hj)]
    obtain ⟨t, h1, h2, h3⟩ := ih _ (seed + 1) (created ++ [i.name]) hrest hnodup.2
    refine ⟨({ id := uuidHex seed, definition_id := i.definition_id, name := i.name
             , value := i.value, scope := i.scope, user_id := u, page_id := none
             , created_at := now, updated_at := now } : SettingsInstanceRow) :: t, ?_, ?_, ?_⟩
    · simpa using h1
    · simpa using h2
    · simpa using h3

theorem install_plugin_fresh (u : String) (w : World)
    (hcf : w.checkFaults = []) (hcp : w.copyFail = false)
    (hfind : w.pending.plugins.find? (isUserPlugin u) = none)
    (hE : (ensureDefsGo w.now PLUGIN_SETTINGS_DEFINITIONS w.pending).2 = none)
    (hI : (instancesGo u w.now settings_instances_data
            (ensureDefsGo w.now PLUGIN_SETTINGS_DEFINITIONS w.pending).1 w.uuidSeed []).2.2.2 = none) :
    install_plugin u [] w = (freshInstallResult u, installedWorldOf u w, [u]) := by
  have hgo := install_plugin_go_fresh u [] w rfl hcf hcp hfind hE hI
  obtain ⟨cm, pnd, fl, cf, cpf, imr, us, nw⟩ := w
  simp only at hcf hcp hfind
  subst hcf hcp
  simpa [install_plugin, check_existing_plugin, popCheckFault, hfind] using hgo

/-! ## C1: fresh install -/

/-- C1 (amended): on a quiescent fault-free store with no plugin row for
(u, BrainDriveSettings), no settings instances for u with scope user for
the three definition ids, and no duplicate settings-definition rows, a
successful install creates exactly one plugin row with id u +
underscore + BrainDriveSettings, exactly three module rows with the
composite module ids, and exactly three settings instances owned by u
with scope user for the three definition ids, and returns success
carrying that plugin id and the three created module names.  (The
amendment adds the precondition that no settings instances for u
pre-exist: the create-if-absent loop skips pre-existing rows, see the
counterexample.) -/
theorem C1_install_fresh_creates_rows (u : String) (w : World)
    (hq : w.pending = w.committed) (hcf : w.checkFaults = []) (hcp : w.copyFail = false)
    (hfind : w.pending.plugins.find? (isUserPlugin u) = none)
    (hdefs : ∀ d ∈ PLUGIN_SETTINGS_DEFINITIONS,
      (w.pending.settings_definitions.filter (fun r => r.id == d.id)).length ≤ 1)
    (hinst : ∀ i ∈ settings_instances_data,
      w.pending.settings_instances.filter (isUserInstance i.definition_id u i.scope) = []) :
    (install_plugin u [] w).1.success = true ∧
    (install_plugin u [] w).1.error = none ∧
    (install_plugin u [] w).1.plugin_id = some (u ++ "_" ++ "BrainDriveSettings") ∧
    (install_plugin u [] w).1.modules_created =
      some ["ComponentTheme", "ComponentGeneralSettings", "ComponentOllamaServer"] ∧
    (∃ newP, (install_plugin u [] w).2.1.committed.plugins = w.committed.plugins ++ [newP] ∧
      newP.id = u ++ "_" ++ "BrainDriveSettings" ∧ newP.user_id = u ∧
      newP.plugin_slug = some "BrainDriveSettings") ∧
    (∃ newMs, (install_plugin u [] w).2.1.committed.modules = w.committed.modules ++ newMs ∧
      newMs.map (fun m => m.id) =
        [u ++ "_" ++ "ComponentTheme", u ++ "_" ++ "ComponentGeneralSettings",
         u ++ "_" ++ "ComponentOllamaServer"]) ∧
    (∃ newIs, (install_plugin u [] w).2.1.committed.settings_instances =
        w.committed.settings_instances ++ newIs ∧
      newIs.map (fun r => (r.definition_id, r.user_id, r.scope)) =
        [("theme_settings", u, "user"), ("ollama_servers_settings", u, "user"),
         ("general_settings", u, "user")]) := by
  have hE := ensureDefsGo_ok w.now PLUGIN_SETTINGS_DEFINITIONS w.pending hdefs (by decide)
  have hEI : (ensureDefsGo w.now PLUGIN_SETTINGS_DEFINITIONS w.pending).1.settings_instances =
      w.pending.settings_instances :=
    (ensureDefsGo_tables w.now PLUGIN_SETTINGS_DEFINITIONS w.pending).2.2.1
  have hinstE : ∀ i ∈ settings_instances_data,
      (ensureDefsGo w.now PLUGIN_SETTINGS_DEFINITIONS w.pending).1.settings_instances.filter
        (isUserInstance i.definition_id u i.scope) = [] := by
    intro i hi; rw [hEI]; exact hinst i hi
  obtain ⟨t, ht1, ht2, -⟩ := instancesGo_fresh u w.now settings_instances_data
    (ensureDefsGo w.now PLUGIN_SETTINGS_DEFINITIONS w.pending).1 w.uuidSeed [] hinstE (by decide)
  have hI := instancesGo_ok u w.now settings_instances_data
    (ensureDefsGo w.now PLUGIN_SETTINGS_DEFINITIONS w.pending).1 w.uuidSeed []
    (fun i hi => by rw [hinstE i hi]; simp) (by decide)
  have hrun := install_plugin_fresh u w hcf hcp hfind hE hI
  rw [hrun]
  have hIP : (instancesGo u w.now settings_instances_data
      (ensureDefsGo w.now PLUGIN_SETTINGS_DEFINITIONS w.pending).1 w.uuidSeed []).1.plugins =
      w.pending.plugins := by
    rw [(instancesGo_tables u w.now settings_instances_data _ w.uuidSeed []).1,
        (ensureDefsGo_tables w.now PLUGIN_SETTINGS_DEFINITIONS w.pending).1]
  have hIM : (instancesGo u w.now settings_instances_data
      (ensureDefsGo w.now PLUGIN_SETTINGS_DEFINITIONS w.pending).1 w.uuidSeed []).1.modules =
      w.pending.modules := by
    rw [(instancesGo_tables u w.now settings_instances_data _ w.uuidSeed []).2.1,
        (ensureDefsGo_tables w.now PLUGIN_SETTINGS_DEFINITIONS w.pending).2.1]
  refine ⟨rfl, rfl, rfl, by simp [freshInstallResult, module_data], ?_, ?_, ?_⟩
  · refine ⟨mkPluginRow u w.now, ?_, rfl, rfl, rfl⟩
    simp [installedWorldOf, installedStoreOf, hIP, ← hq]
  · refine ⟨module_data.map (mkModuleRow u (u ++ "_" ++ plugin_data.plugin_slug) w.now), ?_, ?_⟩
    · simp [installedWorldOf, installedStoreOf, hIM, ← hq]
    · simp [module_data, mkModuleRow]
  · refine ⟨t, ?_, ?_⟩
    · rw [show (installedWorldOf u w).committed.settings_instances =
          (instancesGo u w.now settings_instances_data
            (ensureDefsGo w.now PLUGIN_SETTINGS_DEFINITIONS w.pending).1 w.uuidSeed []).1.settings_instances
          from rfl]
      rw [ht1, hEI, hq]
    · rw [ht2]
      simp [settings_instances_data]


/-! ## C1 counterexample and witness -/

set_option maxRecDepth 100000 in
/-- C1 (counterexample): preInstanceWorld has no plugin row for
(u1, BrainDriveSettings) yet install succeeds while creating only two
new settings instances -- the store goes from one instance to three --
refuting that a successful install on every store with no plugin row
creates exactly three settings instances for the user. -/
theorem C1_counterexample :
    preInstanceWorld.pending.plugins.find? (isUserPlugin "u1") = none ∧
    (install_plugin "u1" [] preInstanceWorld).1.success = true ∧
    preInstanceWorld.committed.settings_instances.length = 1 ∧
    (install_plugin "u1" [] preInstanceWorld).2.1.committed.settings_instances.length = 3 ∧
    (install_plugin "u1" [] preInstanceWorld).2.1.committed.settings_instances.map
      (fun r => r.definition_id) =
      ["theme_settings", "ollama_servers_settings", "general_settings"] := by
  decide

set_option maxRecDepth 100000 in
/-- C1 witness: the amended install theorem applied to user u1 on the
fresh empty world. -/
theorem C1_install_fresh_creates_rows_witness :
    (install_plugin "u1" [] freshWorld).1.success = true ∧
    (install_plugin "u1" [] freshWorld).1.error = none ∧
    (install_plugin "u1" [] freshWorld).1.plugin_id = some ("u1" ++ "_" ++ "BrainDriveSettings") ∧
    (install_plugin "u1" [] freshWorld).1.modules_created =
      some ["ComponentTheme", "ComponentGeneralSettings", "ComponentOllamaServer"] := by
  have T := C1_install_fresh_creates_rows "u1" freshWorld rfl rfl rfl rfl
    (by decide) (by decide)
  exact ⟨T.1, T.2.1, T.2.2.1, T.2.2.2.1⟩

/-! ## C4: uninstall -/

/-- C4: for an installed user, uninstall succeeds, commits exactly the
deletion of the module rows for (user, plugin id) and of the plugin row,
and leaves every settings_definitions row, every settings_instances row
and the on-disk files unchanged; for a user with no plugin row it
returns the not-found failure and deletes nothing. -/
theorem C4_uninstall_frame (u : String) (w : World)
    (hcf : w.checkFaults = []) (hq : w.pending = w.committed) :
    (∀ p, w.pending.plugins.find? (isUserPlugin u) = some p →
      (delete_plugin u w).1.success = true ∧
      (delete_plugin u w).1.deleted_modules =
        some ((w.committed.modules.filter (fun m => m.user_id == u && m.plugin_id == p.id)).length) ∧
      (delete_plugin u w).2.committed.plugins =
        w.committed.plugins.filter (fun q => !(q.user_id == u && q.id == p.id)) ∧
      (delete_plugin u w).2.committed.modules =
        w.committed.modules.filter (fun m => !(m.user_id == u && m.plugin_id == p.id)) ∧
      (delete_plugin u w).2.committed.settings_definitions = w.committed.settings_definitions ∧
      (delete_plugin u w).2.committed.settings_instances = w.committed.settings_instances ∧
      (delete_plugin u w).2.pending = (delete_plugin u w).2.committed ∧
      (delete_plugin u w).2.files = w.files) ∧
    (w.pending.plugins.find? (isUserPlugin u) = none →
      (delete_plugin u w).1 = { success := false, error := some "Plugin not found for user" } ∧
      (delete_plugin u w).2.committed = w.committed ∧
      (delete_plugin u w).2.pending = w.pending ∧
      (delete_plugin u w).2.files = w.files) := by
  obtain ⟨cm, pnd, fl, cf, cpf, imr, us, nw⟩ := w
  simp only at hcf hq
  subst hcf hq
  constructor
  · intro p hfind
    simp [delete_plugin, check_existing_plugin, popCheckFault, delete_database_records, hfind]
  · intro hfind
    simp [delete_plugin, check_existing_plugin, popCheckFault, hfind]

set_option maxRecDepth 100000 in
/-- C4 witness: uninstalling the installed user u1 of the seeded world,
and uninstalling a user with no plugin row on the fresh world. -/
theorem C4_uninstall_frame_witness :
    (delete_plugin "u1" seededWorld).1.success = true ∧
    (delete_plugin "u1" seededWorld).2.committed.settings_definitions =
      seededWorld.committed.settings_definitions ∧
    (delete_plugin "u1" seededWorld).2.committed.settings_instances =
      seededWorld.committed.settings_instances ∧
    (delete_plugin "u1" seededWorld).2.files = seededWorld.files ∧
    (delete_plugin "u1" freshWorld).1 =
      { success := false, error := some "Plugin not found for user" } := by
  have T := C4_uninstall_frame "u1" seededWorld rfl rfl
  have T2 := C4_uninstall_frame "u1" freshWorld rfl rfl
  have h := T.1 seededPlugin (by decide)
  exact ⟨h.1, h.2.2.2.2.1, h.2.2.2.2.2.1, h.2.2.2.2.2.2.2, (T2.2 rfl).1⟩

/-! ## Execution lemmas for delete and a failing copy -/

theorem delete_plugin_run (u : String) (w : World) (p : PluginRow)
    (hcf : w.checkFaults = [])
    (hfind : w.pending.plugins.find? (isUserPlugin u) = some p) :
    delete_plugin u w =
      ({ success := true
       , deleted_modules := some ((w.pending.modules.filter
           (fun m => m.user_id == u && m.plugin_id == p.id)).length) }
      , { w with
           committed := deletedStoreOf u p.id w.pending
         , pending := deletedStoreOf u p.id w.pending
         , checkFaults := [] }) := by
  obtain ⟨cm, pnd, fl, cf, cpf, imr, us, nw⟩ := w
  simp only at hcf hfind
  subst hcf
  simp [delete_plugin, check_existing_plugin, popCheckFault, delete_database_records,
    deletedStoreOf, hfind]

theorem install_plugin_copyfail (u : String) (a : List String) (w : World)
    (hhd : w.checkFaults.headD false = false)
    (hfind : w.pending.plugins.find? (isUserPlugin u) = none)
    (hcp : w.copyFail = true) :
    install_plugin u a w =
      ({ success := false, error := some "copy failed" }
      , { w with checkFaults := w.checkFaults.tail }, a) := by
  obtain ⟨cm, pnd, fl, cf, cpf, imr, us, nw⟩ := w
  simp only at hhd hfind hcp
  subst hcp
  simp at hhd
  simp [install_plugin, install_plugin_go, check_existing_plugin, popCheckFault,
    copy_plugin_files, hhd, hfind]

theorem find?_none_after_delete {u : String} {l : List PluginRow} {p : PluginRow}
    (hfilter : l.filter (isUserPlugin u) = [p]) :
    (l.filter (fun q => !(q.user_id == u && q.id == p.id))).find? (isUserPlugin u) = none := by
  refine List.find?_eq_none.mpr ?_
  intro q hq hpq
  rw [List.mem_filter] at hq
  have hqp := mem_of_filter_eq_singleton hfilter hq.1 hpq
  subst hqp
  simp only [isUserPlugin, Bool.and_eq_true] at hpq
  simp [hpq.1] at hq

/-! ## C10: update is not atomic across delete and install -/

/-- C10: with a failing file copy, update first commits the deletion of
the previous installation and then returns the install failure: the
result is the copy failure, the committed store no longer holds a plugin
row for the user, and status afterwards reports not installed. -/
theorem C10_update_delete_committed_before_install (u : String) (w : World) (p : PluginRow)
    (hcf : w.checkFaults = []) (hcp : w.copyFail = true)
    (hfilter : w.pending.plugins.filter (isUserPlugin u) = [p]) :
    (update_plugin u [] w).1.success = false ∧
    (update_plugin u [] w).1.error = some "copy failed" ∧
    (update_plugin u [] w).2.1.committed.plugins.filter (isUserPlugin u) = [] ∧
    (get_plugin_status u (update_plugin u [] w).2.1).1 = { installed := false } := by
  have hfind := find?_of_filter_eq_singleton hfilter
  have hnone : (deletedStoreOf u p.id w.pending).plugins.find? (isUserPlugin u) = none :=
    find?_none_after_delete hfilter
  have hnil : (deletedStoreOf u p.id w.pending).plugins.filter (isUserPlugin u) = [] :=
    List.filter_eq_nil_iff.mpr (List.find?_eq_none.mp hnone)
  have hdel := delete_plugin_run u w p hcf hfind
  have hinst := install_plugin_copyfail u []
    { w with
        committed := deletedStoreOf u p.id w.pending
      , pending := deletedStoreOf u p.id w.pending
      , checkFaults := [] } (by simp) hnone hcp
  simp only [update_plugin, export_user_data, hdel, hinst]
  refine ⟨rfl, rfl, hnil, ?_⟩
  simp [get_plugin_status, check_existing_plugin, popCheckFault, hnone]

set_option maxRecDepth 100000 in
/-- C10 witness: updating the installed user u1 of the seeded world with
a failing file copy. -/
theorem C10_update_delete_committed_before_install_witness :
    (update_plugin "u1" [] { seededWorld with copyFail := true }).1.success = false ∧
    (update_plugin "u1" [] { seededWorld with copyFail := true }).1.error = some "copy failed" ∧
    (update_plugin "u1" [] { seededWorld with copyFail := true }).2.1.committed.plugins.filter
      (isUserPlugin "u1") = [] ∧
    (get_plugin_status "u1"
      (update_plugin "u1" [] { seededWorld with copyFail := true }).2.1).1 =
      { installed := false } :=
  C10_update_delete_committed_before_install "u1" { seededWorld with copyFail := true }
    seededPlugin rfl rfl (by decide)

/-! ## C9: a failing existence read is masked as non-existence -/

/-- C9: when the plugin-existence query raises, _check_existing_plugin
reports exists false with an error field; consequently delete_plugin
returns the not-found failure leaving both stores untouched,
get_plugin_status reports not installed, and install_plugin proceeds as
if the plugin were not installed (on a fresh store it completes
successfully) instead of surfacing the database error. -/
theorem C9_db_error_masked_as_nonexistence (u : String) (w : World)
    (hf : w.checkFaults.headD false = true) :
    (check_existing_plugin u w).1 =
      { exists_ := false, plugin_id := none, error := some dbErrorMessage } ∧
    (delete_plugin u w).1 = { success := false, error := some "Plugin not found for user" } ∧
    (delete_plugin u w).2.committed = w.committed ∧
    (delete_plugin u w).2.pending = w.pending ∧
    (get_plugin_status u w).1 = { installed := false } ∧
    (∀ w2 : World, w2.checkFaults = [true] → w2.copyFail = false →
      w2.pending.plugins.find? (isUserPlugin u) = none →
      (∀ d ∈ PLUGIN_SETTINGS_DEFINITIONS,
        (w2.pending.settings_definitions.filter (fun r => r.id == d.id)).length ≤ 1) →
      (∀ i ∈ settings_instances_data,
        (w2.pending.settings_instances.filter (isUserInstance i.definition_id u i.scope)).length ≤ 1) →
      (install_plugin u [] w2).1.success = true ∧ (install_plugin u [] w2).1.error = none) := by
  have hf2 : w.checkFaults.head?.getD false = true := by simpa using hf
  refine ⟨?_, ?_, ?_, ?_, ?_, ?_⟩
  · simp [check_existing_plugin, popCheckFault, hf2]
  · simp [delete_plugin, check_existing_plugin, popCheckFault, hf2]
  · simp [delete_plugin, check_existing_plugin, popCheckFault, hf2]
  · simp [delete_plugin, check_existing_plugin, popCheckFault, hf2]
  · simp [get_plugin_status, check_existing_plugin, popCheckFault, hf2]
  · intro w2 hcf2 hcp2 hfind2 hdefs2 hinst2
    have hE := ensureDefsGo_ok w2.now PLUGIN_SETTINGS_DEFINITIONS w2.pending hdefs2 (by decide)
    have hEI : (ensureDefsGo w2.now PLUGIN_SETTINGS_DEFINITIONS w2.pending).1.settings_instances =
        w2.pending.settings_instances :=
      (ensureDefsGo_tables w2.now PLUGIN_SETTINGS_DEFINITIONS w2.pending).2.2.1
    have hI := instancesGo_ok u w2.now settings_instances_data
      (ensureDefsGo w2.now PLUGIN_SETTINGS_DEFINITIONS w2.pending).1 w2.uuidSeed []
      (fun i hi => by rw [hEI]; exact hinst2 i hi) (by decide)
    have hgo := install_plugin_go_fresh u [] { w2 with checkFaults := [] } rfl rfl hcp2 hfind2 hE hI
    obtain ⟨cm, pnd, fl, cf, cpf, imr, us, nw⟩ := w2
    simp only at hcf2 hgo
    subst hcf2
    rw [show (install_plugin u [] ⟨cm, pnd, fl, [true], cpf, imr, us, nw⟩) =
        install_plugin_go u [] ⟨cm, pnd, fl, [], cpf, imr, us, nw⟩ from by
      simp [install_plugin, check_existing_plugin, popCheckFault]]
    rw [hgo]
    exact ⟨rfl, rfl⟩


set_option maxRecDepth 100000 in
/-- C9 witness: the fault instantiated on the seeded installed world
(masked delete and status) and on the fresh world (install proceeds to
success despite the failing first read). -/
theorem C9_db_error_masked_as_nonexistence_witness :
    (check_existing_plugin "u1" { seededWorld with checkFaults := [true] }).1 =
      { exists_ := false, plugin_id := none, error := some dbErrorMessage } ∧
    (delete_plugin "u1" { seededWorld with checkFaults := [true] }).1 =
      { success := false, error := some "Plugin not found for user" } ∧
    (get_plugin_status "u1" { seededWorld with checkFaults := [true] }).1 =
      { installed := false } ∧
    (install_plugin "u1" [] { freshWorld with checkFaults := [true] }).1.success = true := by
  have T := C9_db_error_masked_as_nonexistence "u1" { seededWorld with checkFaults := [true] } rfl
  exact ⟨T.1, T.2.1, T.2.2.2.2.1,
    (T.2.2.2.2.2 { freshWorld with checkFaults := [true] } rfl rfl rfl
      (by decide) (by decide)).1⟩


/-! ## Settings-definition accounting lemmas -/

theorem ensureDefsGo_count (now : String) :
    ∀ (ds : List SettingsDefinitionData) (s : Store) (i : String),
      ((ensureDefsGo now ds s).1.settings_definitions.filter (fun r => r.id == i)).length ≤
        max ((s.settings_definitions.filter (fun r => r.id == i)).length) 1 := by
  intro ds
  induction ds with
  | nil => intro s i; simp [ensureDefsGo]
  | cons d rest ih =>
    intro s i
    simp only [ensureDefsGo]
    split
    · next hf =>
      refine le_trans (ih _ i) ?_
      by_cases hid : d.id = i
      · subst hid
        have h0 : (s.settings_definitions.filter (fun r => r.id == d.id)).length = 0 := by
          rw [hf]; rfl
        have h1 : (((s.settings_definitions ++ [mkSettingsDefinitionRow d now]).filter
            (fun r => r.id == d.id)).length) = 1 := by
          rw [List.filter_append, hf]
          simp [mkSettingsDefinitionRow]
        rw [show ({ s with settings_definitions := s.settings_definitions ++ [mkSettingsDefinitionRow d now] } : Store).settings_definitions = s.settings_definitions ++ [mkSettingsDefinitionRow d now] from rfl]
        rw [h1, h0]
        simp
      · have hrow : ((mkSettingsDefinitionRow d now).id == i) = false := by
          simp [mkSettingsDefinitionRow, hid]
        rw [show ({ s with settings_definitions := s.settings_definitions ++ [mkSettingsDefinitionRow d now] } : Store).settings_definitions = s.settings_definitions ++ [mkSettingsDefinitionRow d now] from rfl]
        rw [List.filter_append]
        simp [hrow]
    · next hf => exact ih s i
    · next x y tl hf => exact le_max_left _ _


theorem instancesGo_defs_preserved (u now : String) (items : List SettingsInstanceData)
    (s : Store) (seed : Nat) (created : List String) :
    (instancesGo u now items s seed created).1.settings_definitions = s.settings_definitions :=
  (instancesGo_tables u now items s seed created).2.2.1

theorem install_plugin_defs_step (u : String) (a : List String) (w : World)
    (hq : w.pending = w.committed) (hcf : w.checkFaults = []) :
    (install_plugin u a w).2.1.pending = (install_plugin u a w).2.1.committed ∧
    (install_plugin u a w).2.1.checkFaults = [] ∧
    (install_plugin u a w).2.1.copyFail = w.copyFail ∧
    (∃ t, (install_plugin u a w).2.1.committed.settings_definitions =
        w.committed.settings_definitions ++ t) ∧
    (∀ i, ((install_plugin u a w).2.1.committed.settings_definitions.filter
        (fun r => r.id == i)).length ≤
      max ((w.committed.settings_definitions.filter (fun r => r.id == i)).length) 1) := by
  obtain ⟨cm, pnd, fl, cf, cpf, imr, us, nw⟩ := w
  simp only at hq hcf
  subst hq hcf
  rcases hfind : pnd.plugins.find? (isUserPlugin u) with _ | p
  case some =>
    simp [install_plugin, check_existing_plugin, popCheckFault, hfind]
  case none =>
  have hgate : install_plugin u a ⟨pnd, pnd, fl, [], cpf, imr, us, nw⟩ =
      install_plugin_go u a ⟨pnd, pnd, fl, [], cpf, imr, us, nw⟩ := by
    simp [install_plugin, check_existing_plugin, popCheckFault, hfind]
  rw [hgate]
  by_cases hcp : cpf = true
  · subst hcp
    have hrun : install_plugin_go u a ⟨pnd, pnd, fl, [], true, imr, us, nw⟩ =
        ({ success := false, error := some "copy failed" },
         ⟨pnd, pnd, fl, [], true, imr, us, nw⟩, a) := by
      simp [install_plugin_go, copy_plugin_files]
    rw [hrun]
    exact ⟨rfl, rfl, rfl, ⟨[], by simp⟩, fun i => le_max_left _ _⟩
  · replace hcp : cpf = false := by revert hcp; cases cpf <;> simp
    subst hcp
    by_cases hmem : u ∈ a
    · have hrun : install_plugin_go u a ⟨pnd, pnd, fl, [], false, imr, us, nw⟩ =
          ({ success := false, error := some "Plugin already installed for user" },
           ⟨pnd, pnd, fl ++ pluginSourceFiles.filter (fun f => !fl.contains f),
            [], false, imr, us, nw⟩, a) := by
        simp [install_plugin_go, copy_plugin_files, install_for_user, hmem]
      rw [hrun]
      exact ⟨rfl, rfl, rfl, ⟨[], by simp⟩, fun i => le_max_left _ _⟩
    · have hmemc : a.contains u = false := by
        simpa using hmem
      rcases hE : (ensureDefsGo nw PLUGIN_SETTINGS_DEFINITIONS pnd).2 with _ | e
      · rcases hI : (instancesGo u nw settings_instances_data
            (ensureDefsGo nw PLUGIN_SETTINGS_DEFINITIONS pnd).1 us []).2.2.2 with _ | e
        · rw [install_plugin_go_fresh u a _ hmemc rfl rfl hfind hE hI]
          refine ⟨rfl, rfl, rfl, ?_, ?_⟩
          · obtain ⟨-, -, -, t, ht⟩ := ensureDefsGo_tables nw PLUGIN_SETTINGS_DEFINITIONS pnd
            refine ⟨t, ?_⟩
            show (instancesGo u nw settings_instances_data
              (ensureDefsGo nw PLUGIN_SETTINGS_DEFINITIONS pnd).1 us []).1.settings_definitions = _
            rw [instancesGo_defs_preserved]
            exact ht
          · intro i
            show ((instancesGo u nw settings_instances_data
              (ensureDefsGo nw PLUGIN_SETTINGS_DEFINITIONS pnd).1 us []).1.settings_definitions.filter
                (fun r => r.id == i)).length ≤ _
            rw [instancesGo_defs_preserved]
            exact ensureDefsGo_count nw PLUGIN_SETTINGS_DEFINITIONS pnd i
        · have hrun : install_plugin_go u a ⟨pnd, pnd, fl, [], false, imr, us, nw⟩ =
              ({ success := false, error := some e },
               ⟨pnd, pnd, fl ++ pluginSourceFiles.filter (fun f => !fl.contains f),
                [], false, imr,
                (instancesGo u nw settings_instances_data
                  (ensureDefsGo nw PLUGIN_SETTINGS_DEFINITIONS pnd).1 us []).2.1, nw⟩, a) := by
            simp [install_plugin_go, copy_plugin_files, install_for_user, hmem,
              perform_user_installation, create_database_records, check_existing_plugin,
              popCheckFault, hfind, ensure_settings_definitions, create_settings_instances, hE, hI]
          rw [hrun]
          exact ⟨rfl, rfl, rfl, ⟨[], by simp⟩, fun i => le_max_left _ _⟩
      · have hrun : install_plugin_go u a ⟨pnd, pnd, fl, [], false, imr, us, nw⟩ =
            ({ success := false, error := some e },
             ⟨pnd, pnd, fl ++ pluginSourceFiles.filter (fun f => !fl.contains f),
              [], false, imr, us, nw⟩, a) := by
          simp [install_plugin_go, copy_plugin_files, install_for_user, hmem,
            perform_user_installation, create_database_records, check_existing_plugin,
            popCheckFault, hfind, ensure_settings_definitions, hE]
        rw [hrun]
        exact ⟨rfl, rfl, rfl, ⟨[], by simp⟩, fun i => le_max_left _ _⟩


theorem installMany_defs (us : List String) : ∀ (w : World),
    w.pending = w.committed → w.checkFaults = [] →
    (installMany us w).pending = (installMany us w).committed ∧
    (installMany us w).checkFaults = [] ∧
    (∃ t, (installMany us w).committed.settings_definitions =
        w.committed.settings_definitions ++ t) ∧
    (∀ i, ((installMany us w).committed.settings_definitions.filter
        (fun r => r.id == i)).length ≤
      max ((w.committed.settings_definitions.filter (fun r => r.id == i)).length) 1) := by
  induction us with
  | nil =>
    intro w hq hcf
    exact ⟨hq, hcf, ⟨[], by simp [installMany]⟩, fun i => by simp [installMany]⟩
  | cons u rest ih =>
    intro w hq hcf
    have hstep : installMany (u :: rest) w = installMany rest (install_plugin u [] w).2.1 := by
      simp [installMany]
    rw [hstep]
    obtain ⟨hq1, hcf1, -, ⟨t1, ht1⟩, hcnt1⟩ := install_plugin_defs_step u [] w hq hcf
    obtain ⟨hq2, hcf2, ⟨t2, ht2⟩, hcnt2⟩ := ih _ hq1 hcf1
    refine ⟨hq2, hcf2, ⟨t1 ++ t2, by rw [ht2, ht1, List.append_assoc]⟩, ?_⟩
    intro i
    have h1 := hcnt1 i
    have h2 := hcnt2 i
    omega

theorem status_committed (u : String) (w : World) :
    (get_plugin_status u w).2.committed = w.committed ∧
    (get_plugin_status u w).2.pending = w.pending := by
  by_cases hf : w.checkFaults.headD false = true
  · have hf2 : w.checkFaults.head?.getD false = true := by simpa using hf
    simp [get_plugin_status, check_existing_plugin, popCheckFault, hf2]
  · have hf2 : w.checkFaults.head?.getD false = false := by
      rw [Bool.not_eq_true] at hf
      simpa using hf
    rcases hfind : w.pending.plugins.find? (isUserPlugin u) with _ | p <;>
      simp [get_plugin_status, check_existing_plugin, popCheckFault, hf2, hfind]

theorem delete_defs_preserved (u : String) (w : World)
    (hq : w.pending = w.committed) :
    (delete_plugin u w).2.committed.settings_definitions =
      w.committed.settings_definitions ∧
    (delete_plugin u w).2.pending = (delete_plugin u w).2.committed ∧
    (delete_plugin u w).2.checkFaults = w.checkFaults.tail := by
  obtain ⟨cm, pnd, fl, cf, cpf, imr, us, nw⟩ := w
  simp only at hq
  subst hq
  by_cases hf : cf.head?.getD false = true
  · simp [delete_plugin, check_existing_plugin, popCheckFault, hf]
  · simp only [Bool.not_eq_true] at hf
    rcases hfind : pnd.plugins.find? (isUserPlugin u) with _ | p
    · simp [delete_plugin, check_existing_plugin, popCheckFault, hf, hfind]
    · simp [delete_plugin, check_existing_plugin, popCheckFault, delete_database_records,
        hf, hfind]


/-! ## Import frame lemmas -/

theorem importFold_modules (u : String) :
    ∀ (entries : List (String × ModuleConfigExport)) (w : World),
      entries.foldl (applyModuleImport u) w =
        mapModules (fun m => entries.foldl (applyModuleEntry u) m) w := by
  intro entries
  induction entries with
  | nil =>
    intro w
    simp [List.foldl_nil, mapModules, List.map_id']
  | cons e es ih =>
    intro w
    rw [List.foldl_cons, show applyModuleImport u w e = mapModules (fun m => applyModuleEntry u m e) w from rfl, ih]
    simp [mapModules, List.map_map]

theorem user_data_import_committed_eq (u : String) (ud : ExportData) (w : World) :
    (user_data_import u ud w).committed = w.committed := by
  unfold user_data_import
  by_cases hr : w.importRaise = true
  · simp [hr]
  · replace hr : w.importRaise = false := by revert hr; cases w.importRaise <;> simp
    rw [hr]
    rcases ud.plugin_config with _ | pc <;>
      simp [importFold_modules, mapModules]

theorem user_data_import_defs_eq (u : String) (ud : ExportData) (w : World) :
    (user_data_import u ud w).pending.settings_definitions = w.pending.settings_definitions := by
  unfold user_data_import
  by_cases hr : w.importRaise = true
  · simp [hr]
  · replace hr : w.importRaise = false := by revert hr; cases w.importRaise <;> simp
    rw [hr]
    rcases ud.plugin_config with _ | pc <;>
      simp [importFold_modules, mapModules]

theorem user_data_import_instances_eq (u : String) (ud : ExportData) (w : World) :
    (user_data_import u ud w).pending.settings_instances = w.pending.settings_instances := by
  unfold user_data_import
  by_cases hr : w.importRaise = true
  · simp [hr]
  · replace hr : w.importRaise = false := by revert hr; cases w.importRaise <;> simp
    rw [hr]
    rcases ud.plugin_config with _ | pc <;>
      simp [importFold_modules, mapModules]

theorem update_plugin_defs_step (u : String) (tA : List String) (w : World)
    (hq : w.pending = w.committed) (hcf : w.checkFaults = []) :
    ∀ d ∈ w.committed.settings_definitions,
      d ∈ (update_plugin u tA w).2.1.committed.settings_definitions := by
  intro d hd
  rcases hfind : w.pending.plugins.find? (isUserPlugin u) with _ | p
  · have hf2 : w.checkFaults.head?.getD false = false := by rw [hcf]; rfl
    have hdel : delete_plugin u w =
        ({ success := false, error := some "Plugin not found for user" },
         { w with checkFaults := w.checkFaults.tail }) := by
      simp [delete_plugin, check_existing_plugin, popCheckFault, hf2, hfind]
    simp only [update_plugin, export_user_data, hdel]
    simpa using hd
  · have hdel := delete_plugin_run u w p hcf hfind
    simp only [update_plugin, export_user_data, hdel]
    obtain ⟨hq1, hcf1, -, ⟨t, ht⟩, -⟩ := install_plugin_defs_step u tA
      { w with
          committed := deletedStoreOf u p.id w.pending
        , pending := deletedStoreOf u p.id w.pending
        , checkFaults := [] } rfl rfl
    have hdm : d ∈ (install_plugin u tA
        { w with
            committed := deletedStoreOf u p.id w.pending
          , pending := deletedStoreOf u p.id w.pending
          , checkFaults := [] }).2.1.committed.settings_definitions := by
      rw [ht]
      refine List.mem_append_left _ ?_
      show d ∈ (deletedStoreOf u p.id w.pending).settings_definitions
      rw [show (deletedStoreOf u p.id w.pending).settings_definitions =
          w.pending.settings_definitions from rfl, hq]
      exact hd
    rcases hiw : install_plugin u tA
        { w with
            committed := deletedStoreOf u p.id w.pending
          , pending := deletedStoreOf u p.id w.pending
          , checkFaults := [] } with ⟨res, w3, act⟩
    rw [hiw] at hdm hq1
    simp only at hdm hq1
    rcases hrs : res.success with _ | _
    · simpa [hrs] using hdm
    · simp only [hrs, Bool.not_true, Bool.false_eq_true, if_false]
      simp only [if_true, user_data_import_defs_eq]
      rw [← hq1] at hdm
      simpa using hdm

/-! ## C5: settings definitions -/

/-- C5: settings-definition creation is idempotent and monotone: across
any sequence of installs every definition id already present is never
inserted again (its row count never exceeds max of its old count and
one, and stays exactly the old count once positive), every existing
definition row survives, and neither install (via installMany),
uninstall, status nor update ever deletes a settings_definitions row. -/
theorem C5_definitions_create_once_never_deleted (w : World) (us : List String)
    (u : String) (tA : List String) (i : String)
    (hq : w.pending = w.committed) (hcf : w.checkFaults = []) :
    (∀ d ∈ w.committed.settings_definitions,
      d ∈ (installMany us w).committed.settings_definitions) ∧
    (((installMany us w).committed.settings_definitions.filter (fun r => r.id == i)).length ≤
      max ((w.committed.settings_definitions.filter (fun r => r.id == i)).length) 1) ∧
    (1 ≤ (w.committed.settings_definitions.filter (fun r => r.id == i)).length →
      ((installMany us w).committed.settings_definitions.filter (fun r => r.id == i)).length =
        (w.committed.settings_definitions.filter (fun r => r.id == i)).length) ∧
    (∀ d ∈ w.committed.settings_definitions,
      d ∈ (delete_plugin u w).2.committed.settings_definitions) ∧
    (∀ d ∈ w.committed.settings_definitions,
      d ∈ (get_plugin_status u w).2.committed.settings_definitions) ∧
    (∀ d ∈ w.committed.settings_definitions,
      d ∈ (update_plugin u tA w).2.1.committed.settings_definitions) := by
  obtain ⟨hq2, hcf2, ⟨t, ht⟩, hcnt⟩ := installMany_defs us w hq hcf
  refine ⟨?_, hcnt i, ?_, ?_, ?_, ?_⟩
  · intro d hd; rw [ht]; exact List.mem_append_left _ hd
  · intro hge
    have h1 := hcnt i
    have h2 : (w.committed.settings_definitions.filter (fun r => r.id == i)).length ≤
        ((installMany us w).committed.settings_definitions.filter (fun r => r.id == i)).length := by
      rw [ht, List.filter_append, List.length_append]
      omega
    omega
  · intro d hd; rw [(delete_defs_preserved u w hq).1]; exact hd
  · intro d hd; rw [(status_committed u w).1]; exact hd
  · exact update_plugin_defs_step u tA w hq hcf

set_option maxRecDepth 200000 in
/-- C5 witness: two installs (a fresh user and an already-installed
user) on the seeded world leave exactly one theme_settings definition
row. -/
theorem C5_definitions_create_once_never_deleted_witness :
    ((installMany ["u2", "u1"] seededWorld).committed.settings_definitions.filter
      (fun r => r.id == "theme_settings")).length ≤
      max ((seededWorld.committed.settings_definitions.filter
        (fun r => r.id == "theme_settings")).length) 1 ∧
    ((installMany ["u2", "u1"] seededWorld).committed.settings_definitions.filter
      (fun r => r.id == "theme_settings")).length =
      (seededWorld.committed.settings_definitions.filter
        (fun r => r.id == "theme_settings")).length := by
  have T := C5_definitions_create_once_never_deleted seededWorld ["u2", "u1"] "u1" [] "theme_settings" rfl rfl
  exact ⟨T.2.1, T.2.2.1 (by decide)⟩


/-! ## The successful update run -/

theorem update_plugin_success_run (u : String) (w : World) (p : PluginRow)
    (hcf : w.checkFaults = []) (hcp : w.copyFail = false)
    (h1 : w.pending.plugins.filter (isUserPlugin u) = [p])
    (hdefs : ∀ d ∈ PLUGIN_SETTINGS_DEFINITIONS,
      (w.pending.settings_definitions.filter (fun r => r.id == d.id)).length ≤ 1)
    (hinst : ∀ i ∈ settings_instances_data,
      (w.pending.settings_instances.filter (isUserInstance i.definition_id u i.scope)).length ≤ 1) :
    update_plugin u [] w =
      (freshInstallResult u,
       (let w2 : World :=
          { w with
              committed := deletedStoreOf u p.id w.pending
            , pending := deletedStoreOf u p.id w.pending
            , checkFaults := [] }
        let w3 := installedWorldOf u w2
        let wi := user_data_import u (exportDataOf u w) w3
        { wi with committed := wi.pending }),
       [u]) := by
  have hfind := find?_of_filter_eq_singleton h1
  have hdel := delete_plugin_run u w p hcf hfind
  have hfind2 : (deletedStoreOf u p.id w.pending).plugins.find? (isUserPlugin u) = none :=
    find?_none_after_delete h1
  have hE : (ensureDefsGo w.now PLUGIN_SETTINGS_DEFINITIONS
      (deletedStoreOf u p.id w.pending)).2 = none := by
    refine ensureDefsGo_ok w.now PLUGIN_SETTINGS_DEFINITIONS _ ?_ (by decide)
    intro d hd
    exact hdefs d hd
  have hEI : (ensureDefsGo w.now PLUGIN_SETTINGS_DEFINITIONS
      (deletedStoreOf u p.id w.pending)).1.settings_instances =
      w.pending.settings_instances :=
    (ensureDefsGo_tables w.now PLUGIN_SETTINGS_DEFINITIONS _).2.2.1
  have hI : (instancesGo u w.now settings_instances_data
      (ensureDefsGo w.now PLUGIN_SETTINGS_DEFINITIONS (deletedStoreOf u p.id w.pending)).1
      w.uuidSeed []).2.2.2 = none := by
    refine instancesGo_ok u w.now settings_instances_data _ w.uuidSeed [] ?_ (by decide)
    intro i hi
    rw [hEI]
    exact hinst i hi
  have hrun := install_plugin_fresh u
    { w with
        committed := deletedStoreOf u p.id w.pending
      , pending := deletedStoreOf u p.id w.pending
      , checkFaults := [] } rfl hcp hfind2 hE hI
  simp only [update_plugin, export_user_data, hdel, hrun, freshInstallResult]
  rfl

/-! ## C6: best-effort import -/

/-- C6: when the re-import of the exported user data raises (the
importRaise fault), the exception is caught, not surfaced: update still
returns the successful install result carrying the plugin id, and the
user ends up with the freshly-installed plugin row (whose JSON
configuration columns are NULL - the prior configuration is silently
dropped). -/
theorem C6_update_success_despite_import_failure (u : String) (w : World) (p : PluginRow)
    (hcf : w.checkFaults = []) (hcp : w.copyFail = false)
    (himp : w.importRaise = true)
    (h1 : w.pending.plugins.filter (isUserPlugin u) = [p])
    (hdefs : ∀ d ∈ PLUGIN_SETTINGS_DEFINITIONS,
      (w.pending.settings_definitions.filter (fun r => r.id == d.id)).length ≤ 1)
    (hinst : ∀ i ∈ settings_instances_data,
      (w.pending.settings_instances.filter (isUserInstance i.definition_id u i.scope)).length ≤ 1) :
    (update_plugin u [] w).1.success = true ∧
    (update_plugin u [] w).1.error = none ∧
    (update_plugin u [] w).1.plugin_id = some (u ++ "_" ++ "BrainDriveSettings") ∧
    (update_plugin u [] w).2.1.committed.plugins.filter (isUserPlugin u) =
      [mkPluginRow u w.now] := by
  rw [update_plugin_success_run u w p hcf hcp h1 hdefs hinst]
  refine ⟨rfl, rfl, rfl, ?_⟩
  have hskip : user_data_import u (exportDataOf u w)
      (installedWorldOf u
        { w with
            committed := deletedStoreOf u p.id w.pending
          , pending := deletedStoreOf u p.id w.pending
          , checkFaults := [] }) =
      installedWorldOf u
        { w with
            committed := deletedStoreOf u p.id w.pending
          , pending := deletedStoreOf u p.id w.pending
          , checkFaults := [] } := by
    unfold user_data_import
    rw [show (installedWorldOf u
        { w with
            committed := deletedStoreOf u p.id w.pending
          , pending := deletedStoreOf u p.id w.pending
          , checkFaults := [] }).importRaise = true from himp]
    simp
  show ((user_data_import u (exportDataOf u w) _).pending.plugins.filter (isUserPlugin u)) = _
  rw [hskip]
  have hIP : (instancesGo u w.now settings_instances_data
      (ensureDefsGo w.now PLUGIN_SETTINGS_DEFINITIONS (deletedStoreOf u p.id w.pending)).1
      w.uuidSeed []).1.plugins = (deletedStoreOf u p.id w.pending).plugins := by
    rw [(instancesGo_tables u w.now settings_instances_data _ w.uuidSeed []).1,
        (ensureDefsGo_tables w.now PLUGIN_SETTINGS_DEFINITIONS _).1]
  have hnil : (deletedStoreOf u p.id w.pending).plugins.filter (isUserPlugin u) = [] :=
    List.filter_eq_nil_iff.mpr (List.find?_eq_none.mp (find?_none_after_delete h1))
  have hmk : isUserPlugin u (mkPluginRow u w.now) = true := by
    simp [isUserPlugin, mkPluginRow]
  show ((installedStoreOf u _).plugins.filter (isUserPlugin u)) = _
  simp only [installedStoreOf]
  rw [List.filter_append, hIP, hnil]
  simp [hmk]

set_option maxRecDepth 200000 in
/-- C6 witness: updating the installed user u1 of the seeded world with
a raising import step. -/
theorem C6_update_success_despite_import_failure_witness :
    (update_plugin "u1" [] { seededWorld with importRaise := true }).1.success = true ∧
    (update_plugin "u1" [] { seededWorld with importRaise := true }).1.error = none ∧
    (update_plugin "u1" [] { seededWorld with importRaise := true }).1.plugin_id =
      some ("u1" ++ "_" ++ "BrainDriveSettings") ∧
    (update_plugin "u1" [] { seededWorld with importRaise := true }).2.1.committed.plugins.filter
      (isUserPlugin "u1") = [mkPluginRow "u1" "t0"] :=
  C6_update_success_despite_import_failure "u1" { seededWorld with importRaise := true }
    seededPlugin rfl rfl rfl (by decide) (by decide) (by decide)


/-! ## C3: the update round trip on the stored JSON configuration -/


theorem comp_id_inj {u x y : String} (h : u ++ "_" ++ x = u ++ "_" ++ y) : x = y :=
  string_append_left_cancel h

theorem applyModuleEntry_fields (u : String) (m : ModuleRow) (e : String × ModuleConfigExport) :
    (applyModuleEntry u m e).id = m.id ∧ (applyModuleEntry u m e).user_id = m.user_id := by
  unfold applyModuleEntry
  split <;> exact ⟨rfl, rfl⟩

theorem applyModuleEntry_miss (u : String) (m : ModuleRow) (e : String × ModuleConfigExport)
    (h : ¬ m.id = u ++ "_" ++ e.1) : applyModuleEntry u m e = m := by
  unfold applyModuleEntry
  simp [h]

theorem applyModuleEntry_hit (u : String) (m : ModuleRow) (n0 : String) (c0 : ModuleConfigExport)
    (hu : m.user_id = u) (hid : m.id = u ++ "_" ++ n0) :
    applyModuleEntry u m (n0, c0) =
      { m with
          props := some c0.props,
          config_fields := some c0.config_fields,
          messages := some c0.messages,
          layout := some c0.layout } := by
  unfold applyModuleEntry
  simp [hu, hid]

theorem applyEntries_id (u : String) :
    ∀ (entries : List (String × ModuleConfigExport)) (m : ModuleRow),
      (entries.foldl (applyModuleEntry u) m).id = m.id ∧
      (entries.foldl (applyModuleEntry u) m).user_id = m.user_id := by
  intro entries
  induction entries with
  | nil => intro m; exact ⟨rfl, rfl⟩
  | cons e es ih =>
    intro m
    rw [List.foldl_cons]
    obtain ⟨h1, h2⟩ := ih (applyModuleEntry u m e)
    obtain ⟨h3, h4⟩ := applyModuleEntry_fields u m e
    exact ⟨h1.trans h3, h2.trans h4⟩

theorem applyEntries_no_match (u : String) :
    ∀ (entries : List (String × ModuleConfigExport)) (m : ModuleRow),
      (∀ e ∈ entries, (m.user_id == u && m.id == u ++ "_" ++ e.1) = false) →
      entries.foldl (applyModuleEntry u) m = m := by
  intro entries
  induction entries with
  | nil => intro m _; rfl
  | cons e es ih =>
    intro m hno
    rw [List.foldl_cons, show applyModuleEntry u m e = m from by
      unfold applyModuleEntry
      rw [hno e (List.mem_cons_self _ _)]
      rfl]
    exact ih m (fun e2 he2 => hno e2 (List.mem_cons_of_mem _ he2))

theorem applyEntries_match (u : String) :
    ∀ (entries : List (String × ModuleConfigExport)) (m : ModuleRow) (n0 : String)
      (c0 : ModuleConfigExport),
      (entries.map (fun e => e.1)).Nodup → (n0, c0) ∈ entries →
      m.user_id = u → m.id = u ++ "_" ++ n0 →
      entries.foldl (applyModuleEntry u) m = applyModuleEntry u m (n0, c0) := by
  intro entries
  induction entries with
  | nil => intro m n0 c0 _ hmem; cases hmem
  | cons e es ih =>
    intro m n0 c0 hnodup hmem hu hid
    simp only [List.map_cons, List.nodup_cons] at hnodup
    rcases List.mem_cons.mp hmem with heq | htail
    · subst heq
      rw [List.foldl_cons]
      obtain ⟨hfid, hfuid⟩ := applyModuleEntry_fields u m (n0, c0)
      refine applyEntries_no_match u es _ ?_
      intro e2 he2
      have hne : n0 ≠ e2.1 := by
        intro hcontra
        exact hnodup.1 (hcontra ▸ List.mem_map_of_mem (fun e => e.1) he2)
      rw [hfid, hfuid, hid]
      have hids : ¬ (u ++ "_" ++ n0 = u ++ "_" ++ e2.1) := fun hc => hne (comp_id_inj hc)
      simp [hids]
    · have hne : e.1 ≠ n0 := by
        intro hcontra
        exact hnodup.1 (hcontra ▸ List.mem_map_of_mem (fun e => e.1) htail)
      rw [List.foldl_cons, applyModuleEntry_miss u m e (by
        rw [hid]
        intro hcontra
        exact hne (comp_id_inj hcontra).symm)]
      exact ih m n0 c0 hnodup.2 htail hu hid

theorem pluginTouch_fields (u : String) (pc : PluginConfigExport) (q : PluginRow) :
    (pluginTouch u pc q).user_id = q.user_id ∧ (pluginTouch u pc q).id = q.id ∧
    (pluginTouch u pc q).plugin_slug = q.plugin_slug := by
  unfold pluginTouch
  split <;> exact ⟨rfl, rfl, rfl⟩

theorem isUserPlugin_pluginTouch (u u2 : String) (pc : PluginConfigExport) (q : PluginRow) :
    isUserPlugin u (pluginTouch u2 pc q) = isUserPlugin u q := by
  obtain ⟨h1, _, h3⟩ := pluginTouch_fields u2 pc q
  unfold isUserPlugin
  rw [h1, h3]

theorem dictFold_eq_map :
    ∀ (rows : List ModuleRow) (acc : List (String × ModuleConfigExport)),
      (rows.map (fun m => m.name)).Nodup →
      (∀ m ∈ rows, acc.any (fun e => e.1 == m.name) = false) →
      rows.foldl (fun acc m => dictInsert acc m.name (exportModuleConfig m)) acc =
        acc ++ rows.map (fun m => (m.name, exportModuleConfig m)) := by
  intro rows
  induction rows with
  | nil => intro acc _ _; simp
  | cons r rs ih =>
    intro acc hnodup hdisj
    simp only [List.map_cons, List.nodup_cons] at hnodup
    rw [List.foldl_cons]
    have hstep : dictInsert acc r.name (exportModuleConfig r) =
        acc ++ [(r.name, exportModuleConfig r)] := by
      unfold dictInsert
      rw [hdisj r (List.mem_cons_self _ _)]
      simp
    have hdisj2 : ∀ m ∈ rs,
        ((acc ++ [(r.name, exportModuleConfig r)]).any (fun e => e.1 == m.name)) = false := by
      intro m hm
      rw [List.any_append, hdisj m (List.mem_cons_of_mem _ hm)]
      simp only [List.any_cons, List.any_nil, Bool.false_or, Bool.or_false]
      exact beq_eq_false_iff_ne.mpr (fun hc => hnodup.1 (by
        rw [hc]
        exact List.mem_map_of_mem (fun m => m.name) hm))
    rw [hstep, ih _ hnodup.2 hdisj2]
    simp

theorem exported_names_nodup (u : String) (D : List ModuleRow)
    (hnd : (D.map (fun m => m.id)).Nodup)
    (hids : ∀ m ∈ D.filter (isExportedModule u), m.id = u ++ "_" ++ m.name) :
    ((D.filter (isExportedModule u)).map (fun m => m.name)).Nodup := by
  have hsub : List.Sublist ((D.filter (isExportedModule u)).map (fun m => m.id))
      (D.map (fun m => m.id)) :=
    (List.filter_sublist D).map (fun m => m.id)
  have h1 : ((D.filter (isExportedModule u)).map (fun m => m.id)).Nodup := hnd.sublist hsub
  have h2 : (D.filter (isExportedModule u)).map (fun m => m.id) =
      ((D.filter (isExportedModule u)).map (fun m => m.name)).map (fun n => u ++ "_" ++ n) := by
    rw [List.map_map]
    exact List.map_congr_left hids
  rw [h2] at h1
  exact h1.of_map _

theorem user_data_import_run (u : String) (ud : ExportData) (pc : PluginConfigExport) (w : World)
    (hr : w.importRaise = false) (hpc : ud.plugin_config = some pc) :
    user_data_import u ud w =
      mapModules (fun m => ud.modules_config.foldl (applyModuleEntry u) m)
        { w with pending :=
            { w.pending with plugins := w.pending.plugins.map (pluginTouch u pc) } } := by
  unfold user_data_import
  rw [hr, hpc]
  simp only [Bool.false_eq_true, if_false]
  rw [importFold_modules]

theorem fresh_filter (u comp now nm : String) (g : ModuleRow → ModuleRow)
    (hg : ∀ r, (g r).id = r.id)
    (d : ModuleDescriptor) (hd : d ∈ module_data) (hdn : d.name = nm) :
    ((module_data.map (mkModuleRow u comp now)).map g).filter
        (fun r => r.id == u ++ "_" ++ nm) = [g (mkModuleRow u comp now d)] := by
  have hne : ∀ a b : String, ¬ a = b → (u ++ "_" ++ a == u ++ "_" ++ b) = false :=
    fun a b hab => beq_eq_false_iff_ne.mpr (fun hc => hab (comp_id_inj hc))
  subst hdn
  simp only [module_data, List.mem_cons, List.not_mem_nil, or_false] at hd
  rcases hd with h | h | h <;> subst h <;>
    simp only [module_data, List.map_cons, List.map_nil, List.filter_cons, List.filter_nil, hg,
      mkModuleRow, beq_self_eq_true,
      hne "ComponentTheme" "ComponentGeneralSettings" (by decide),
      hne "ComponentTheme" "ComponentOllamaServer" (by decide),
      hne "ComponentGeneralSettings" "ComponentTheme" (by decide),
      hne "ComponentGeneralSettings" "ComponentOllamaServer" (by decide),
      hne "ComponentOllamaServer" "ComponentTheme" (by decide),
      hne "ComponentOllamaServer" "ComponentGeneralSettings" (by decide)] <;>
    simp

/-- C3: the update round trip (export, delete, re-install of an
identical adapter, best-effort import) is the identity on the JSON
configuration values stored on the user's rows: under a fault-free run
on a store holding exactly one plugin row p for the user (carrying the
composite plugin id) whose module rows have unique ids, composite
module ids and descriptor names, update succeeds, the user's plugin row
afterwards keeps p's config_fields, messages and dependencies wherever
those columns were non-NULL, and each of the user's module rows keeps
its props, config_fields, messages and layout wherever those columns
were non-NULL. -/
theorem C3_update_round_trip (u : String) (w : World) (p : PluginRow)
    (hcf : w.checkFaults = []) (hcp : w.copyFail = false)
    (himp : w.importRaise = false)
    (h1 : w.pending.plugins.filter (isUserPlugin u) = [p])
    (h2 : p.id = u ++ "_" ++ plugin_data.plugin_slug)
    (hdefs : ∀ d ∈ PLUGIN_SETTINGS_DEFINITIONS,
      (w.pending.settings_definitions.filter (fun r => r.id == d.id)).length ≤ 1)
    (hinst : ∀ i ∈ settings_instances_data,
      (w.pending.settings_instances.filter (isUserInstance i.definition_id u i.scope)).length ≤ 1)
    (hnd : (w.pending.modules.map (fun m => m.id)).Nodup)
    (hmid : ∀ m ∈ w.pending.modules, isExportedModule u m = true →
      m.plugin_id = u ++ "_" ++ plugin_data.plugin_slug ∧
      m.id = u ++ "_" ++ m.name ∧
      m.name ∈ module_data.map (fun d => d.name)) :
    (update_plugin u [] w).1.success = true ∧
    (∃ pNew,
      (update_plugin u [] w).2.1.committed.plugins.filter (isUserPlugin u) = [pNew] ∧
      (p.config_fields.isSome = true → pNew.config_fields = p.config_fields) ∧
      (p.messages.isSome = true → pNew.messages = p.messages) ∧
      (p.dependencies.isSome = true → pNew.dependencies = p.dependencies)) ∧
    (∀ m ∈ w.pending.modules, m.user_id = u →
      m.plugin_id = u ++ "_" ++ plugin_data.plugin_slug →
      ∃ mNew,
        (update_plugin u [] w).2.1.committed.modules.filter (fun r => r.id == m.id) = [mNew] ∧
        (m.props.isSome = true → mNew.props = m.props) ∧
        (m.config_fields.isSome = true → mNew.config_fields = m.config_fields) ∧
        (m.messages.isSome = true → mNew.messages = m.messages) ∧
        (m.layout.isSome = true → mNew.layout = m.layout)) := by
  have hfind := find?_of_filter_eq_singleton h1
  have hud : (exportDataOf u w).plugin_config =
      some ⟨p.config_fields.getD (Json.objL []), p.messages.getD (Json.objL []),
            p.dependencies.getD (Json.arrL [])⟩ := by
    unfold exportDataOf
    rw [hfind]
  have hrowsids : ∀ m ∈ w.pending.modules.filter (isExportedModule u),
      m.id = u ++ "_" ++ m.name := by
    intro m hm
    obtain ⟨hmD, hmE⟩ := List.mem_filter.mp hm
    exact (hmid m hmD hmE).2.1
  have hnames : ((w.pending.modules.filter (isExportedModule u)).map (fun m => m.name)).Nodup :=
    exported_names_nodup u w.pending.modules hnd hrowsids
  have hmcfg : (exportDataOf u w).modules_config =
      (w.pending.modules.filter (isExportedModule u)).map
        (fun m => (m.name, exportModuleConfig m)) := by
    show (w.pending.modules.filter (isExportedModule u)).foldl
        (fun acc m => dictInsert acc m.name (exportModuleConfig m)) [] = _
    rw [dictFold_eq_map _ [] hnames (fun _ _ => rfl)]
    exact List.nil_append _
  have hkeys : ((exportDataOf u w).modules_config.map (fun e => e.1)).Nodup := by
    rw [hmcfg, List.map_map]
    exact hnames
  have himp3 : (installedWorldOf u
      { w with
          committed := deletedStoreOf u p.id w.pending
        , pending := deletedStoreOf u p.id w.pending
        , checkFaults := [] }).importRaise = false := himp
  have hwi := user_data_import_run u (exportDataOf u w)
      ⟨p.config_fields.getD (Json.objL []), p.messages.getD (Json.objL []),
       p.dependencies.getD (Json.arrL [])⟩
      (installedWorldOf u
        { w with
            committed := deletedStoreOf u p.id w.pending
          , pending := deletedStoreOf u p.id w.pending
          , checkFaults := [] })
      himp3 hud
  have hIP : (instancesGo u w.now settings_instances_data
      (ensureDefsGo w.now PLUGIN_SETTINGS_DEFINITIONS (deletedStoreOf u p.id w.pending)).1
      w.uuidSeed []).1.plugins = (deletedStoreOf u p.id w.pending).plugins := by
    rw [(instancesGo_tables u w.now settings_instances_data _ w.uuidSeed []).1,
        (ensureDefsGo_tables w.now PLUGIN_SETTINGS_DEFINITIONS _).1]
  have hIM : (instancesGo u w.now settings_instances_data
      (ensureDefsGo w.now PLUGIN_SETTINGS_DEFINITIONS (deletedStoreOf u p.id w.pending)).1
      w.uuidSeed []).1.modules = (deletedStoreOf u p.id w.pending).modules := by
    rw [(instancesGo_tables u w.now settings_instances_data _ w.uuidSeed []).2.1,
        (ensureDefsGo_tables w.now PLUGIN_SETTINGS_DEFINITIONS _).2.1]
  have hnilP : ∀ q ∈ (deletedStoreOf u p.id w.pending).plugins, ¬ isUserPlugin u q = true :=
    List.find?_eq_none.mp (find?_none_after_delete h1)
  have hmk : isUserPlugin u (mkPluginRow u w.now) = true := by
    simp [isUserPlugin, mkPluginRow]
  rw [update_plugin_success_run u w p hcf hcp h1 hdefs hinst]
  refine ⟨rfl, ?_, ?_⟩
  · refine ⟨pluginTouch u
        ⟨p.config_fields.getD (Json.objL []), p.messages.getD (Json.objL []),
         p.dependencies.getD (Json.arrL [])⟩ (mkPluginRow u w.now), ?_, ?_, ?_, ?_⟩
    · show ((user_data_import u (exportDataOf u w) _).pending.plugins.filter (isUserPlugin u)) = _
      rw [hwi]
      show ((installedStoreOf u _).plugins.map (pluginTouch u _)).filter (isUserPlugin u) = _
      simp only [installedStoreOf]
      rw [hIP, List.map_append, List.filter_append]
      have hdelnil : (((deletedStoreOf u p.id w.pending).plugins.map (pluginTouch u
          ⟨p.config_fields.getD (Json.objL []), p.messages.getD (Json.objL []),
           p.dependencies.getD (Json.arrL [])⟩)).filter (isUserPlugin u)) = [] := by
        refine List.filter_eq_nil_iff.mpr ?_
        intro r hr
        obtain ⟨x, hx, rfl⟩ := List.mem_map.mp hr
        rw [isUserPlugin_pluginTouch]
        exact hnilP x hx
      rw [hdelnil, List.nil_append]
      have hcond : isUserPlugin u (pluginTouch u
          ⟨p.config_fields.getD (Json.objL []), p.messages.getD (Json.objL []),
           p.dependencies.getD (Json.arrL [])⟩ (mkPluginRow u w.now)) = true := by
        rw [isUserPlugin_pluginTouch]
        exact hmk
      simp only [List.map_cons, List.map_nil, List.filter_cons, List.filter_nil, hcond]
      simp
    · intro hs
      obtain ⟨j, hj⟩ := Option.isSome_iff_exists.mp hs
      show (pluginTouch u _ (mkPluginRow u w.now)).config_fields = p.config_fields
      unfold pluginTouch
      rw [hj]
      simp [mkPluginRow]
    · intro hs
      obtain ⟨j, hj⟩ := Option.isSome_iff_exists.mp hs
      show (pluginTouch u _ (mkPluginRow u w.now)).messages = p.messages
      unfold pluginTouch
      rw [hj]
      simp [mkPluginRow]
    · intro hs
      obtain ⟨j, hj⟩ := Option.isSome_iff_exists.mp hs
      show (pluginTouch u _ (mkPluginRow u w.now)).dependencies = p.dependencies
      unfold pluginTouch
      rw [hj]
      simp [mkPluginRow]
  · intro m hm hmu hmpid
    have hexp : isExportedModule u m = true := by
      unfold isExportedModule
      rw [hmpid]
      simp [hmu, likeMatch_self]
    obtain ⟨_, hmid2, hmid3⟩ := hmid m hm hexp
    obtain ⟨d, hd, hdname⟩ := List.mem_map.mp hmid3
    have hment : (m.name, exportModuleConfig m) ∈ (exportDataOf u w).modules_config := by
      rw [hmcfg]
      exact List.mem_map_of_mem _ (List.mem_filter.mpr ⟨hm, hexp⟩)
    have hfid : (mkModuleRow u (u ++ "_" ++ plugin_data.plugin_slug) w.now d).id =
        u ++ "_" ++ m.name := by
      show u ++ "_" ++ d.name = _
      rw [hdname]
    refine ⟨applyModuleEntry u (mkModuleRow u (u ++ "_" ++ plugin_data.plugin_slug) w.now d)
        (m.name, exportModuleConfig m), ?_, ?_, ?_, ?_, ?_⟩
    · rw [hmid2]
      show ((user_data_import u (exportDataOf u w) _).pending.modules.filter
        (fun r => r.id == u ++ "_" ++ m.name)) = _
      rw [hwi]
      show (((installedStoreOf u _).modules.map
          (fun mm => (exportDataOf u w).modules_config.foldl (applyModuleEntry u) mm)).filter
        (fun r => r.id == u ++ "_" ++ m.name)) = _
      simp only [installedStoreOf]
      rw [hIM, List.map_append, List.filter_append]
      have hdelnil : ((((deletedStoreOf u p.id w.pending).modules).map
          (fun mm => (exportDataOf u w).modules_config.foldl (applyModuleEntry u) mm)).filter
          (fun r => r.id == u ++ "_" ++ m.name)) = [] := by
        refine List.filter_eq_nil_iff.mpr ?_
        intro r hr
        obtain ⟨x, hx, rfl⟩ := List.mem_map.mp hr
        obtain ⟨hxD, hxkeep⟩ := List.mem_filter.mp hx
        have hxid : ((exportDataOf u w).modules_config.foldl (applyModuleEntry u) x).id = x.id :=
          (applyEntries_id u _ x).1
        rw [hxid]
        intro hxm
        have hxideq : x.id = u ++ "_" ++ m.name := by
          exact eq_of_beq hxm
        rw [← hmid2] at hxideq
        have hxm2 : x = m := List.inj_on_of_nodup_map hnd hxD hm hxideq
        rw [hxm2, hmu, hmpid, ← h2] at hxkeep
        simp at hxkeep
      rw [hdelnil, List.nil_append,
        fresh_filter u (u ++ "_" ++ plugin_data.plugin_slug) w.now m.name
          (fun mm => (exportDataOf u w).modules_config.foldl (applyModuleEntry u) mm)
          (fun r => (applyEntries_id u _ r).1) d hd hdname,
        applyEntries_match u ((exportDataOf u w).modules_config)
          (mkModuleRow u (u ++ "_" ++ plugin_data.plugin_slug) w.now d)
          m.name (exportModuleConfig m) hkeys hment rfl hfid]
    · intro hs
      obtain ⟨j, hj⟩ := Option.isSome_iff_exists.mp hs
      rw [applyModuleEntry_hit u _ m.name (exportModuleConfig m) rfl hfid]
      show some (m.props.getD (Json.objL [])) = m.props
      rw [hj]
      rfl
    · intro hs
      obtain ⟨j, hj⟩ := Option.isSome_iff_exists.mp hs
      rw [applyModuleEntry_hit u _ m.name (exportModuleConfig m) rfl hfid]
      show some (m.config_fields.getD (Json.objL [])) = m.config_fields
      rw [hj]
      rfl
    · intro hs
      obtain ⟨j, hj⟩ := Option.isSome_iff_exists.mp hs
      rw [applyModuleEntry_hit u _ m.name (exportModuleConfig m) rfl hfid]
      show some (m.messages.getD (Json.objL [])) = m.messages
      rw [hj]
      rfl
    · intro hs
      obtain ⟨j, hj⟩ := Option.isSome_iff_exists.mp hs
      rw [applyModuleEntry_hit u _ m.name (exportModuleConfig m) rfl hfid]
      show some (m.layout.getD (Json.objL [])) = m.layout
      rw [hj]
      rfl

set_option maxRecDepth 200000 in
/-- C3 witness: updating the installed user u1 of the seeded world (a
fault-free world whose plugin row and theme module row carry
distinctive JSON values) succeeds and hands both values back
unchanged. -/
theorem C3_update_round_trip_witness :
    (update_plugin "u1" [] seededWorld).1.success = true ∧
    ((update_plugin "u1" [] seededWorld).2.1.committed.plugins.filter
        (isUserPlugin "u1")).map (fun q => q.config_fields) = [some (Json.str "cf0")] ∧
    ((update_plugin "u1" [] seededWorld).2.1.committed.modules.filter
        (fun r => r.id == "u1_ComponentTheme")).map (fun r => r.props) =
      [some (Json.str "pp-ComponentTheme")] := by
  have T := C3_update_round_trip "u1" seededWorld seededPlugin rfl rfl rfl (by decide)
    (by decide) (by decide) (by decide) (by decide) (by decide)
  refine ⟨T.1, ?_, ?_⟩
  · obtain ⟨pNew, hf, hc, _, _⟩ := T.2.1
    rw [hf]
    simp only [List.map_cons, List.map_nil]
    rw [hc (by decide)]
    rfl
  · obtain ⟨mNew, hfm, hp, _, _, _⟩ := T.2.2 (seededWorld.pending.modules.get ⟨0, by decide⟩)
      (List.get_mem _ _ _) (by decide) (by decide)
    have hmthid : (seededWorld.pending.modules.get ⟨0, by decide⟩).id = "u1_ComponentTheme" := by
      decide
    simp only [← hmthid]
    rw [hfm]
    simp only [List.map_cons, List.map_nil]
    rw [hp (by decide)]
    decide

end BrainDriveSettings
